import Mathlib

/-!
# Verification development for `web/static/js/app.js`

A shallow embedding of the browser-side controller of the trading dashboard:
the formatter utilities, the dynamic parameter form, the file upload zone,
the backtest orchestrator, the results renderer, the export trigger and the
status poller, followed by the theorems that settle the specification's claims
about them.

JavaScript numbers are IEEE-754 doubles.  They are embedded exactly, as signed
dyadic rationals `m * 2^e` next to `NaN` and the two infinities, so that
truthiness, comparison with zero, the product with `100` and `toFixed(2)` are
computed on the mathematical value the way ECMAScript defines them.
-/

namespace TradingWeb

/-! ## JavaScript numbers -/

/-- A JavaScript number: `NaN`, an infinity, or the finite value
`(-1)^neg * m * 2^e` (`fin true 0 _` is negative zero). -/
inductive JSNumber where
  | nan
  | inf (neg : Bool)
  | fin (neg : Bool) (m : Nat) (e : Int)
deriving DecidableEq, Repr

namespace JSNumber

/-- Halving `m` until it vanishes, at most `fuel` times, counting the steps. -/
def bitLengthAux : Nat → Nat → Nat
  | 0, _ => 0
  | fuel + 1, m => if m = 0 then 0 else bitLengthAux fuel (m / 2) + 1

/-- The number of binary digits of `m` (`0` for `0`). -/
def bitLength (m : Nat) : Nat := bitLengthAux m m

/-- Division of `m` by `2^k` rounded to nearest, ties to even. -/
def shiftRoundEven (m k : Nat) : Nat :=
  if k = 0 then m else
    let q := m / 2 ^ k
    let r := m % 2 ^ k
    let half := 2 ^ (k - 1)
    if half < r ∨ (r = half ∧ q % 2 = 1) then q + 1 else q

/-- The double nearest to the dyadic rational `(-1)^neg * m * 2^e`
(round to nearest, ties to even; gradual underflow below `2^-1022`, overflow to
an infinity from `2^1024 - 2^970` on). -/
def roundDyadic (neg : Bool) (m : Nat) (e : Int) : JSNumber :=
  if m = 0 then fin neg 0 0 else
    let target : Int := max (e + (bitLength m : Int) - 53) (-1074)
    if target ≤ e then
      if e + (bitLength m : Int) > 1024 then inf neg else fin neg m e
    else
      let r := shiftRoundEven m (target - e).toNat
      if r = 0 then fin neg 0 0
      else if target + (bitLength r : Int) > 1024 then inf neg else fin neg r target

/-- The double nearest to the rational `(-1)^neg * num / den` (`den` positive).
The quotient is taken down to the binary place `2^-1100`, below every rounding
boundary of a double (these are multiples of `2^-1075`), and one more digit
records whether anything was cut off; the result is rounded as a dyadic
rational. -/
def roundRatio (neg : Bool) (num den : Nat) : JSNumber :=
  if num = 0 ∨ den = 0 then fin neg 0 0 else
    let q := (num * 2 ^ 1100) / den
    let sticky := if (num * 2 ^ 1100) % den = 0 then 0 else 1
    roundDyadic neg (2 * q + sticky) (-1101)

/-- ToBoolean on a number: `NaN`, `+0` and `-0` are falsy. -/
def truthy : JSNumber → Bool
  | nan => false
  | inf _ => true
  | fin _ m _ => m != 0

/-- The comparison `x >= 0` (false for `NaN`, true for both zeros). -/
def geZero : JSNumber → Bool
  | nan => false
  | inf neg => !neg
  | fin neg m _ => !neg || m == 0

/-- The product `x * 100` of doubles: exact product, then rounding. -/
def mul100 : JSNumber → JSNumber
  | nan => nan
  | inf neg => inf neg
  | fin neg m e => roundDyadic neg (m * 100) e

/-- A non-negative integer as a double. -/
def ofNat (n : Nat) : JSNumber := roundDyadic false n 0

/-- Whether the magnitude `m * 2^e` is at least `10^21`. -/
def magGe1e21 (m : Nat) (e : Int) : Bool :=
  if 0 ≤ e then decide (10 ^ 21 ≤ m * 2 ^ e.toNat)
  else decide (10 ^ 21 * 2 ^ (-e).toNat ≤ m)

/-- The integer `n` for which `n / 100` is closest to `m * 2^e`, the larger one
on a tie (step 11.a of `Number.prototype.toFixed` with two fraction digits). -/
def nearestHundredths (m : Nat) (e : Int) : Nat :=
  if 0 ≤ e then m * 2 ^ e.toNat * 100
  else (2 * (m * 100) + 2 ^ (-e).toNat) / (2 * 2 ^ (-e).toNat)

/-- The decimal digits of `n` cut two places from the right, padded with zeros
so that one digit stands before the point (steps 11.b to 11.d of `toFixed`). -/
def placePoint2 (n : Nat) : String :=
  let ds := (Nat.repr n).toList
  let ds := if ds.length ≤ 2 then List.replicate (3 - ds.length) '0' ++ ds else ds
  String.mk (ds.take (ds.length - 2)) ++ "." ++ String.mk (ds.drop (ds.length - 2))

end JSNumber

/-- The built-in operations of the host whose results depend on the engine, the
locale or the time zone.  They are not part of the repository and are taken as
parameters. -/
structure Host where
  /-- Number to string conversion, `Number::toString(x, 10)`. -/
  numberToString : JSNumber → String
  /-- The call `x.toLocaleString()` in the browser's default locale. -/
  toLocaleStringDefault : JSNumber → String
  /-- The call `x.toLocaleString(locale, opts)` with zero fraction digits. -/
  toLocaleStringInteger : String → JSNumber → String
  /-- The call `new Date(s).toLocaleDateString(locale)`. -/
  toLocaleDateString : String → String → String

namespace JSNumber

/-- The method `x.toFixed(2)`. -/
def toFixed2 (host : Host) : JSNumber → String
  | nan => "NaN"
  | inf neg => if neg then "-Infinity" else "Infinity"
  | fin neg m e =>
    let s := if neg && m != 0 then "-" else ""
    if magGe1e21 m e then s ++ host.numberToString (fin false m e)
    else s ++ placePoint2 (nearestHundredths m e)

end JSNumber

/-! ## Values and formatter utilities -/

/-- A value of type `α` that may also be `undefined` or `null`: a field of a
JSON payload, or a script variable that has not been assigned. -/
inductive Nullable (α : Type) where
  | undefined
  | null
  | val (a : α)
deriving DecidableEq, Repr

/-- The test `v === null || v === undefined`. -/
def Nullable.isNullish {α : Type} : Nullable α → Bool
  | .val _ => false
  | _ => true

/-- ToBoolean on a string that may be absent: only a non-empty string is truthy. -/
def truthyString : Nullable String → Bool
  | .val s => s != ""
  | _ => false

/-- Source: `formatDate(dateString)`: the placeholder for a falsy argument,
otherwise the date in the `zh-TW` locale. -/
def formatDate (host : Host) (dateString : Nullable String) : String :=
  match dateString with
  | .val s => if s != "" then host.toLocaleDateString "zh-TW" s else "-"
  | _ => "-"

/-- Source: `formatPrice(price)`, that is `price ? price.toFixed(2) : '-'`. -/
def formatPrice (host : Host) (price : Nullable JSNumber) : String :=
  match price with
  | .val x => if x.truthy then x.toFixed2 host else "-"
  | _ => "-"

/-- Source: `formatMoney(amount)`: the placeholder for `null` and `undefined`,
otherwise `amount.toLocaleString('zh-TW', ...)` with no fraction digits. -/
def formatMoney (host : Host) (amount : Nullable JSNumber) : String :=
  match amount with
  | .val x => host.toLocaleStringInteger "zh-TW" x
  | _ => "-"

/-- Source: `formatPercentage(value)`: the placeholder for `null` and
`undefined`, otherwise `(value * 100).toFixed(2) + '%'`. -/
def formatPercentage (host : Host) (value : Nullable JSNumber) : String :=
  match value with
  | .val x => x.mul100.toFixed2 host ++ "%"
  | _ => "-"

/-! ## Data model -/

/-- A file chosen in a picker or dropped on an upload zone. -/
structure File where
  name : String
  type : String
  size : Nat
deriving DecidableEq, Repr

/-- A number as a JSON body carries it: a finite double, or an infinity where
the literal overflows; never `NaN`. -/
inductive JsonNumber where
  | inf (neg : Bool)
  | fin (neg : Bool) (m : Nat) (e : Int)
deriving DecidableEq, Repr

/-- The JavaScript number a JSON number is parsed to. -/
def JsonNumber.toNumber : JsonNumber → JSNumber
  | .inf neg => .inf neg
  | .fin neg m e => .fin neg m e

/-- The value of a key that is present in a JSON object: `null`, or a value. -/
inductive JsonField (α : Type) where
  | null
  | val (a : α)
deriving DecidableEq, Repr

/-- A JSON string field as the script sees it. -/
def JsonField.text : JsonField String → Nullable String
  | .null => .null
  | .val s => .val s

/-- A JSON number field as the script sees it. -/
def JsonField.number : JsonField JsonNumber → Nullable JSNumber
  | .null => .null
  | .val x => .val x.toNumber

/-- One trade of a backtest result, as parsed from the JSON body.  Every key is
present: the share count is a number, a date is a string or `null`, a price, an
amount or a rate is a number or `null`. -/
structure TradeRecord where
  entry_date : JsonField String
  exit_date : JsonField String
  stock_id : String
  trade_direction : String
  entry_price : JsonField JsonNumber
  exit_price : JsonField JsonNumber
  shares : JsonNumber
  profit_loss : JsonField JsonNumber
  profit_loss_rate : JsonField JsonNumber
  net_profit_loss : JsonField JsonNumber
deriving DecidableEq, Repr

/-- The `results` object of a backtest response. -/
structure BacktestResult where
  total_trades : JSNumber
  win_rate : JSNumber
  total_profit_loss_rate : JSNumber
  max_drawdown_rate : JSNumber
  sharpe_ratio : JSNumber
  total_profit_loss : JSNumber
  trade_records : Nullable (List TradeRecord)
  /-- Only the number of chart descriptors is read. -/
  charts : Nullable Nat
  /-- Only the length of the equity curve is read. -/
  equity_curve : Nullable Nat
deriving DecidableEq, Repr

/-- A value collected from a parameter control: the checked state of a
checkbox, the string value of another control, or `null` (a `select` without
options). -/
inductive ParamValue where
  | bool (b : Bool)
  | str (s : String)
  | null
deriving DecidableEq, Repr

/-- The object built by `collectStrategyParameters`: keys in insertion order. -/
abbrev ParamMap := List (String × ParamValue)

/-- The assignment `parameters[key] = v`: an existing key keeps its place. -/
def ParamMap.assign : ParamMap → String → ParamValue → ParamMap
  | [], key, v => [(key, v)]
  | (k, w) :: rest, key, v =>
    if k = key then (k, v) :: rest else (k, w) :: ParamMap.assign rest key v

/-- An argument of `FormData.append`, before the browser serialises it. -/
inductive FormValue where
  | text (v : Nullable String)
  | number (x : JSNumber)
  /-- The argument `JSON.stringify(parameters)`. -/
  | json (parameters : ParamMap)
  | file (f : File)
deriving DecidableEq, Repr

/-- The multipart payload: field names with the values appended, in order. -/
abbrev FormData := List (String × FormValue)

/-- A network call made by the page. -/
inductive Request where
  | systemStatus
  | strategies
  | strategyParameters (name : String)
  | backtestExecute (data : FormData)
  | exportExcel (results : BacktestResult) (exportType : String)
deriving DecidableEq, Repr

/-- The address a request is sent to. -/
def Request.url : Request → String
  | .systemStatus => "/api/system/status"
  | .strategies => "/api/strategies"
  | .strategyParameters name => "/api/strategy/" ++ name ++ "/parameters"
  | .backtestExecute _ => "/api/backtest/execute"
  | .exportExcel _ _ => "/api/backtest/export-excel"

/-- Whether a request is a backtest submission. -/
def Request.isBacktest : Request → Bool
  | .backtestExecute _ => true
  | _ => false

/-! ## The dynamic parameter form

The document is a tree of elements.  Markup handed to jQuery is embedded as
the elements it denotes; this presumes that the interpolated texts hold none of
the characters `"`, `&`, `<` and `>`.  The live value and checked state of a
control are kept in its `value` and `checked` attributes. -/

/-- A primitive JavaScript value, as found in a parameter schema. -/
inductive JSValue where
  | undefined
  | null
  | bool (b : Bool)
  | num (x : JSNumber)
  | str (s : String)
deriving DecidableEq, Repr

/-- Equality of the values of two finite numbers given by mantissa and exponent. -/
def JSNumber.sameMagnitude (m₁ : Nat) (e₁ : Int) (m₂ : Nat) (e₂ : Int) : Bool :=
  if e₁ ≤ e₂ then m₁ == m₂ * 2 ^ (e₂ - e₁).toNat else m₁ * 2 ^ (e₁ - e₂).toNat == m₂

/-- The comparison `x === y` on numbers: `NaN` differs from itself, the two
zeros are equal. -/
def JSNumber.strictEq : JSNumber → JSNumber → Bool
  | .inf a, .inf b => a == b
  | .fin a m₁ e₁, .fin b m₂ e₂ =>
    (m₁ == 0 && m₂ == 0) || (a == b && JSNumber.sameMagnitude m₁ e₁ m₂ e₂)
  | _, _ => false

namespace JSValue

/-- ToBoolean. -/
def truthy : JSValue → Bool
  | undefined => false
  | null => false
  | bool b => b
  | num x => x.truthy
  | str s => s != ""

/-- ToString, as performed by a template literal. -/
def toStr (host : Host) : JSValue → String
  | undefined => "undefined"
  | null => "null"
  | bool b => if b then "true" else "false"
  | num x => host.numberToString x
  | str s => s

/-- The comparison `a === b`. -/
def strictEq : JSValue → JSValue → Bool
  | undefined, undefined => true
  | null, null => true
  | bool a, bool b => a == b
  | num x, num y => x.strictEq y
  | str a, str b => a == b
  | _, _ => false

/-- The interpolation of `v || fallback` into a template literal. -/
def orText (host : Host) (v : JSValue) (fallback : String) : String :=
  if v.truthy then v.toStr host else fallback

end JSValue

/-- One entry of the `options` array of a `select` parameter. -/
structure ParamOption where
  value : JSValue
  label : JSValue
deriving DecidableEq, Repr

/-- The description of one strategy parameter in a parameter schema. -/
structure ParamSpec where
  type : String
  default : JSValue
  min : JSValue
  max : JSValue
  step : JSValue
  options : List ParamOption
  required : JSValue
  description : JSValue
  label : JSValue
deriving DecidableEq, Repr

/-- A parameter schema: the keys of the `parameters` object, in the order of
`Object.keys`, each with its description.  Keys are pairwise distinct. -/
abbrev ParameterSchema := List (String × ParamSpec)

/-- A node of the document tree. -/
inductive Node where
  | element (tag : String) (attrs : List (String × String)) (children : List Node)
  | text (s : String)
deriving Repr

namespace Node

/-- The value of an attribute of an element, `undefined` when it has none. -/
def attr (name : String) : Node → Option String
  | element _ attrs _ => (attrs.find? (fun a => a.1 == name)).map (fun a => a.2)
  | text _ => none

/-- The call `.attr(name, value)` on an element. -/
def setAttr (name value : String) : Node → Node
  | element tag attrs children =>
    element tag (attrs.filter (fun a => a.1 != name) ++ [(name, value)]) children
  | text s => text s

/-- The tag of an element. -/
def tagName : Node → Option String
  | element tag _ _ => some tag
  | text _ => none

/-- The children of an element. -/
def childNodes : Node → List Node
  | element _ _ children => children
  | text _ => []

mutual
/-- The text inside a node. -/
def textContent : Node → String
  | element _ _ children => textOfList children
  | text s => s
/-- The text inside a list of sibling nodes. -/
def textOfList : List Node → String
  | [] => ""
  | n :: ns => textContent n ++ textOfList ns
end

mutual
/-- The `input` and `select` elements at or below a node, in document order. -/
def controls : Node → List Node
  | element tag attrs children =>
    (if tag = "input" ∨ tag = "select" then [element tag attrs children] else [])
      ++ controlsOfList children
  | text _ => []
/-- The `input` and `select` elements below a list of sibling nodes. -/
def controlsOfList : List Node → List Node
  | [] => []
  | n :: ns => controls n ++ controlsOfList ns
end

end Node

/-- The markup of one entry of a `select` parameter: the `selected` mark is set
on the entries whose value is strictly equal to the default. -/
def renderOption (host : Host) (param : ParamSpec) (option : ParamOption) : Node :=
  .element "option"
    ([("value", option.value.toStr host)]
      ++ (if option.value.strictEq param.default then [("selected", "")] else []))
    [.text (option.label.toStr host)]

/-- The control built for one parameter, the variable `input` of
`renderStrategyParameters` before the `required` mark is added.  The `number`,
`boolean` and text branches give their control the id `param-<key>`; the
`select` branch gives none. -/
def renderInput (host : Host) (key : String) (param : ParamSpec) : Node :=
  if param.type = "number" then
    .element "input"
      [("type", "number"), ("class", "form-control"), ("id", "param-" ++ key),
       ("value", param.default.orText host ""), ("min", param.min.orText host ""),
       ("max", param.max.orText host ""), ("step", param.step.orText host "1")] []
  else if param.type = "select" then
    .element "select" [("class", "form-control")]
      (param.options.map (renderOption host param))
  else if param.type = "boolean" then
    .element "div" [("class", "custom-control custom-switch")]
      [.element "input"
         ([("type", "checkbox"), ("class", "custom-control-input"), ("id", "param-" ++ key)]
           ++ (if param.default.truthy then [("checked", "")] else [])) [],
       .element "label" [("class", "custom-control-label"), ("for", "param-" ++ key)]
         [.text (param.label.orText host key)]]
  else
    .element "input"
      [("type", "text"), ("class", "form-control"), ("id", "param-" ++ key),
       ("value", param.default.orText host "")] []

/-- The column built for one parameter: a form group with the label, the
control (marked `required` when the schema says so) and the optional help. -/
def renderColumn (host : Host) (key : String) (param : ParamSpec) : Node :=
  let label : Node :=
    .element "label" [("for", "param-" ++ key)] [.text (param.label.orText host key)]
  let input := renderInput host key param
  let input := if param.required.truthy then input.setAttr "required" "required" else input
  let formGroup : Node :=
    if param.description.truthy then
      .element "div" [("class", "form-group")]
        [label, input,
         .element "small" [("class", "form-text text-muted")]
           [.text (param.description.toStr host)]]
    else
      .element "div" [("class", "form-group")] [label, input]
  .element "div" [("class", "col-md-6")] [formGroup]

/-- Source: `renderStrategyParameters(parameters)`: the new content of the
`#strategy-parameters` container, whose previous content is discarded. -/
def renderStrategyParameters (host : Host) (parameters : ParameterSchema) : List Node :=
  if parameters.length = 0 then
    [.element "p" [("class", "text-muted")] [.text "此策略無需額外參數"]]
  else
    [.element "div" [("class", "row")]
      (parameters.map (fun kp => renderColumn host kp.1 kp.2))]

/-- The method `String.prototype.replace` with string arguments: the first
occurrence of the pattern is replaced. -/
def replaceFirst (pat rep : List Char) : List Char → List Char
  | [] => if pat.isEmpty then rep else []
  | c :: cs =>
    if pat.isPrefixOf (c :: cs) then rep ++ (c :: cs).drop pat.length
    else c :: replaceFirst pat rep cs

/-- The value of an `option` element: its `value` attribute, else its text. -/
def optionValue (o : Node) : String :=
  match o.attr "value" with
  | some v => v
  | none => o.textContent

/-- The call `.val()` on a control.  An `input` gives its value (`on` for a
checkbox or radio button without a `value`); a `select` gives the value of its
last entry marked selected, else of its first entry, and `null` when it has no
entries. -/
def controlVal (el : Node) : ParamValue :=
  if el.tagName = some "select" then
    let opts := el.childNodes.filter (fun o => o.tagName == some "option")
    match (opts.filter (fun o => (o.attr "selected").isSome)).getLast? with
    | some o => .str (optionValue o)
    | none =>
      match opts.head? with
      | some o => .str (optionValue o)
      | none => .null
  else
    match el.attr "value" with
    | some v => .str v
    | none =>
      if el.attr "type" = some "checkbox" ∨ el.attr "type" = some "radio" then .str "on"
      else .str ""

/-- The test `.is(':checked')` on a control. -/
def controlChecked (el : Node) : Bool :=
  el.tagName == some "input" && (el.attr "checked").isSome

/-- The body of the `each` callback of `collectStrategyParameters`, applied to
one control: a control whose id starts with `param-` assigns its value to the
key that remains after the first `param-` is removed from the id. -/
def collectControl (parameters : ParamMap) (el : Node) : ParamMap :=
  match el.attr "id" with
  | some id =>
    if id != "" && "param-".toList.isPrefixOf id.toList then
      let key := String.mk (replaceFirst "param-".toList [] id.toList)
      if el.attr "type" = some "checkbox" then
        parameters.assign key (.bool (controlChecked el))
      else
        parameters.assign key (controlVal el)
    else parameters
  | none => parameters

/-- Source: `collectStrategyParameters()`, on the content of the
`#strategy-parameters` container: every `input` and `select` below it is
visited in document order. -/
def collectStrategyParameters (container : List Node) : ParamMap :=
  (Node.controlsOfList container).foldl collectControl []

/-! ## The results view -/

/-- The comparison `v >= 0` on a field that may be absent: `null` converts to
`0`, `undefined` to `NaN`. -/
def geZeroField : Nullable JSNumber → Bool
  | .undefined => false
  | .null => true
  | .val x => x.geZero

/-- One of the six cards of the summary: title, displayed text and the style
class added to `stat-value` (empty when there is none). -/
structure StatCard where
  title : String
  value : String
  style : String
deriving DecidableEq, Repr

/-- One row of the trade table. -/
structure TradeRow where
  entryDate : String
  exitDate : String
  stockId : String
  badgeClass : String
  badgeText : String
  entryPrice : String
  exitPrice : String
  shares : String
  profitLossClass : String
  profitLoss : String
  profitLossRateClass : String
  profitLossRate : String
  netProfitLossClass : String
  netProfitLoss : String
deriving DecidableEq, Repr

/-- What `displayBacktestResults` puts into the results container: the summary
cards, the trade table when there is one, and, when a charts section is
rendered, whether it holds the equity curve placeholder. -/
structure ResultsView where
  summary : List StatCard
  table : Option (List TradeRow)
  charts : Option Bool
deriving DecidableEq, Repr

/-- The style class chosen by `x >= 0 ? 'text-success' : 'text-danger'`. -/
def signClass (nonNegative : Bool) : String :=
  if nonNegative then "text-success" else "text-danger"

/-- The summary markup of `displayBacktestResults`. -/
def renderSummary (host : Host) (results : BacktestResult) : List StatCard :=
  [⟨"總交易次數", host.numberToString results.total_trades, ""⟩,
   ⟨"勝率", results.win_rate.mul100.toFixed2 host ++ "%", ""⟩,
   ⟨"總報酬", results.total_profit_loss_rate.mul100.toFixed2 host ++ "%",
     signClass results.total_profit_loss_rate.geZero⟩,
   ⟨"最大回撤", results.max_drawdown_rate.mul100.toFixed2 host ++ "%", "text-danger"⟩,
   ⟨"夏普比率", results.sharpe_ratio.toFixed2 host, ""⟩,
   ⟨"淨損益", host.toLocaleStringDefault results.total_profit_loss,
     signClass results.total_profit_loss.geZero⟩]

/-- The table row built for one trade record. -/
def renderTradeRow (host : Host) (trade : TradeRecord) : TradeRow where
  entryDate := formatDate host trade.entry_date.text
  exitDate := formatDate host trade.exit_date.text
  stockId := trade.stock_id
  badgeClass := if trade.trade_direction = "buy" then "badge-success" else "badge-danger"
  badgeText := if trade.trade_direction = "buy" then "買入" else "賣出"
  entryPrice := formatPrice host trade.entry_price.number
  exitPrice := formatPrice host trade.exit_price.number
  shares := host.toLocaleStringDefault trade.shares.toNumber
  profitLossClass := signClass (geZeroField trade.profit_loss.number)
  profitLoss := formatMoney host trade.profit_loss.number
  profitLossRateClass := signClass (geZeroField trade.profit_loss_rate.number)
  profitLossRate := formatPercentage host trade.profit_loss_rate.number
  netProfitLossClass := signClass (geZeroField trade.net_profit_loss.number)
  netProfitLoss := formatMoney host trade.net_profit_loss.number

/-- The content `displayBacktestResults` renders for a result. -/
def renderResults (host : Host) (results : BacktestResult) : ResultsView where
  summary := renderSummary host results
  table :=
    match results.trade_records with
    | .val (t :: ts) => some ((t :: ts).map (renderTradeRow host))
    | _ => none
  charts :=
    match results.charts with
    | .val n =>
      if 0 < n then
        some (match results.equity_curve with
          | .val k => decide (0 < k)
          | _ => false)
      else none
    | _ => none

/-- The content of the `#backtest-results` container. -/
inductive ResultsContent where
  /-- Whatever the server rendered into the page. -/
  | page
  /-- The spinner written by `showBacktestProgress`. -/
  | progress
  /-- Nothing. -/
  | cleared
  /-- The output of `displayBacktestResults`. -/
  | results (view : ResultsView)
deriving DecidableEq, Repr

/-! ## `parseFloat` -/

/-- White space and line terminators, which `parseFloat` skips at the start. -/
def isJSWhiteSpace (c : Char) : Bool :=
  [0x9, 0xA, 0xB, 0xC, 0xD, 0x20, 0xA0, 0x1680, 0x2028, 0x2029, 0x202F, 0x205F,
    0x3000, 0xFEFF].contains c.toNat || (0x2000 ≤ c.toNat && c.toNat ≤ 0x200A)

/-- The number written by a list of decimal digits. -/
def digitsValue (ds : List Char) : Nat :=
  ds.foldl (fun acc c => 10 * acc + (c.toNat - 48)) 0

/-- The exponent read by `parseFloat` from what follows the mantissa: an `e` or
`E`, an optional sign and at least one digit; `0` when that is not there. -/
def parseExponent : List Char → Int
  | c :: rest =>
    if c = 'e' ∨ c = 'E' then
      match rest with
      | '-' :: ds =>
        if (ds.takeWhile Char.isDigit).isEmpty then 0
        else -(digitsValue (ds.takeWhile Char.isDigit) : Int)
      | '+' :: ds => (digitsValue (ds.takeWhile Char.isDigit) : Int)
      | ds => (digitsValue (ds.takeWhile Char.isDigit) : Int)
    else 0
  | [] => 0

/-- The unsigned part of `parseFloat`: the longest leading decimal literal. -/
def parseUnsigned (neg : Bool) (cs : List Char) : JSNumber :=
  if "Infinity".toList.isPrefixOf cs then .inf neg else
    let intDigits := cs.takeWhile Char.isDigit
    let rest := cs.dropWhile Char.isDigit
    let fracDigits :=
      match rest with
      | '.' :: r => r.takeWhile Char.isDigit
      | _ => []
    let rest :=
      match rest with
      | '.' :: r => r.dropWhile Char.isDigit
      | r => r
    if intDigits.isEmpty && fracDigits.isEmpty then .nan else
      let mantissa := digitsValue (intDigits ++ fracDigits)
      let exponent : Int := parseExponent rest - (fracDigits.length : Int)
      if 0 ≤ exponent then JSNumber.roundDyadic neg (mantissa * 10 ^ exponent.toNat) 0
      else JSNumber.roundRatio neg mantissa (10 ^ (-exponent).toNat)

/-- The global function `parseFloat` on a string. -/
def parseFloatString (s : String) : JSNumber :=
  match s.toList.dropWhile isJSWhiteSpace with
  | '-' :: cs => parseUnsigned true cs
  | '+' :: cs => parseUnsigned false cs
  | cs => parseUnsigned false cs

/-- The global function `parseFloat` on the result of `.val()`: `undefined`
and `null` are first converted to the strings of these names. -/
def parseFloat : Nullable String → JSNumber
  | .val s => parseFloatString s
  | _ => .nan

/-! ## Page state -/

/-- A dismissible message shown by `showAlert`. -/
structure Alert where
  type : String
  message : String
deriving DecidableEq, Repr

/-- A callback scheduled with `setTimeout` that has not run yet. -/
inductive Timer where
  /-- From `showAlert`: close every alert, after five seconds. -/
  | closeAlerts
  /-- From `handleFileUpload`: complete the simulated upload of a file on an
  upload zone, after two seconds. -/
  | uploadComplete (file : File) (zone : Nat)
deriving DecidableEq, Repr

/-- A callback registered with `setInterval`.  The ticks of the progress bar
only restyle the bar and are not modelled further. -/
inductive Interval where
  /-- From `initializeApp`: `checkSystemStatus` every thirty seconds. -/
  | systemStatusPoll
  /-- From `showUploadProgress`: the bar animation of an upload zone. -/
  | uploadProgressTick (zone : Nat)
deriving DecidableEq, Repr

/-- An element of class `file-upload-area`. -/
structure UploadZone where
  /-- The text of the `.file-name` element, when the zone has one. -/
  fileName : Option String
  /-- Whether the zone carries the class `has-file`. -/
  hasFile : Bool
  /-- Whether the zone holds an `.upload-progress` element. -/
  uploadProgress : Bool
  /-- Whether the zone carries the class `dragover`. -/
  dragover : Bool
deriving DecidableEq, Repr

/-- An element of class `system-status`: the indicator named by its
`data-status-type` attribute, with its text and its classes. -/
structure StatusBadge where
  statusType : String
  text : String
  classes : List String
deriving DecidableEq, Repr

/-- The inputs read by `executeBacktest`: the result of `.val()` on each (it is
`undefined` when the element is missing), and the list of chosen files of the
two file inputs (`none` when the element is missing). -/
structure BacktestForm where
  strategy : Nullable String
  dataSource : Nullable String
  stockSource : Nullable String
  startDate : Nullable String
  endDate : Nullable String
  initialCapital : Nullable String
  priceFiles : Option (List File)
  stockFiles : Option (List File)
deriving DecidableEq, Repr

/-- The script's variables and the parts of the page it reads and writes. -/
structure AppState where
  /-- The script variable `isBacktestRunning`. -/
  isBacktestRunning : Bool
  /-- The property `window.currentBacktestResults`, read by the export. -/
  currentBacktestResults : Nullable BacktestResult
  form : BacktestForm
  /-- The content of `#strategy-parameters`. -/
  strategyParameters : List Node
  /-- The content of `#backtest-results`. -/
  backtestResults : ResultsContent
  /-- Whether `#backtest-results` carries the class `fade-in`. -/
  resultsFadeIn : Bool
  zones : List UploadZone
  /-- The elements of class `system-status`, in document order. -/
  statusBadges : List StatusBadge
  /-- The alerts on the page, newest first. -/
  alerts : List Alert
  timers : List Timer
  intervals : List Interval
  /-- The lines written to the console, oldest first. -/
  console : List String
  /-- Every network call made so far, oldest first. -/
  requests : List Request
  /-- The network calls that have not completed yet. -/
  pending : List Request
  /-- Whether the document-wide `ajaxError` and `ajaxSuccess` listeners exist. -/
  ajaxListeners : Bool
  /-- The names of the files offered for download, oldest first. -/
  downloads : List String
deriving Repr

/-- What a function of the script throws. -/
inductive JSError where
  | typeError (message : String)
deriving DecidableEq, Repr

/-- The response object of a failed request, as far as the script reads it. -/
structure Xhr where
  status : Nat
  responseText : Nullable String
deriving DecidableEq, Repr

/-- The string `start + xhr.responseText`. -/
def Xhr.appendResponseText (start : String) (xhr : Xhr) : String :=
  match xhr.responseText with
  | .val t => start ++ t
  | .null => start ++ "null"
  | .undefined => start ++ "undefined"

/-- Source: `showAlert(type, message)`: the alert is put first on the page and
a timer is set that closes the alerts. -/
def showAlert (type message : String) (s : AppState) : AppState :=
  { s with alerts := ⟨type, message⟩ :: s.alerts, timers := s.timers ++ [Timer.closeAlerts] }

/-- Source: `showSuccess(message)`. -/
def showSuccess (message : String) (s : AppState) : AppState := showAlert "success" message s

/-- Source: `showError(message)`. -/
def showError (message : String) (s : AppState) : AppState := showAlert "danger" message s

/-- Source: `showWarning(message)`. -/
def showWarning (message : String) (s : AppState) : AppState := showAlert "warning" message s

/-- Source: `showInfo(message)`. -/
def showInfo (message : String) (s : AppState) : AppState := showAlert "info" message s

/-- A call of `$.ajax`, `$.get`: the request is sent and awaits completion. -/
def sendRequest (r : Request) (s : AppState) : AppState :=
  { s with requests := s.requests ++ [r], pending := s.pending ++ [r] }

/-- Source: `handleAjaxError(xhr, error)`. -/
def handleAjaxError (xhr : Xhr) (error : String) (s : AppState) : AppState :=
  let s := { s with console := s.console ++ ["AJAX錯誤: " ++ error] }
  if xhr.status = 401 then showError "請先登入系統" s
  else if xhr.status = 403 then showError "權限不足" s
  else if xhr.status = 404 then showError "請求的資源不存在" s
  else if xhr.status = 500 then showError "伺服器內部錯誤" s
  else showError ("請求失敗: " ++ error) s

/-- Source: `handleAjaxSuccess(xhr, settings)`. -/
def handleAjaxSuccess (url : String) (s : AppState) : AppState :=
  { s with console := s.console ++ ["AJAX請求成功: " ++ url] }

/-- The document-wide `ajaxError` event, which jQuery raises after the
request's own callbacks have run. -/
def globalAjaxError (xhr : Xhr) (error : String) (s : AppState) : AppState :=
  if s.ajaxListeners then handleAjaxError xhr error s else s

/-- The document-wide `ajaxSuccess` event, raised after the request's own
callbacks have run. -/
def globalAjaxSuccess (url : String) (s : AppState) : AppState :=
  if s.ajaxListeners then handleAjaxSuccess url s else s

/-! ## File upload zone -/

/-- Applies `f` to the upload zone with the given index. -/
def updateZone (f : UploadZone → UploadZone) : Nat → List UploadZone → List UploadZone
  | _, [] => []
  | 0, z :: zs => f z :: zs
  | n + 1, z :: zs => z :: updateZone f n zs

/-- The MIME types `handleFileUpload` accepts. -/
def allowedTypes : List String :=
  ["application/vnd.openxmlformats-officedocument.spreadsheetml.sheet",
   "application/vnd.ms-excel"]

/-- Source: `showUploadProgress(uploadArea)`: a fresh progress element
replaces the previous one and the bar animation is started. -/
def showUploadProgress (zone : Nat) (s : AppState) : AppState :=
  { s with
    zones := updateZone (fun z => { z with uploadProgress := true }) zone s.zones,
    intervals := s.intervals ++ [Interval.uploadProgressTick zone] }

/-- Source: `hideUploadProgress(uploadArea)`. -/
def hideUploadProgress (zone : Nat) (s : AppState) : AppState :=
  { s with zones := updateZone (fun z => { z with uploadProgress := false }) zone s.zones }

/-- Source: `handleFileUpload(file, uploadArea)`, the upload zone given by its
index among the zones of the page. -/
def handleFileUpload (file : File) (zone : Nat) (s : AppState) : AppState :=
  if !allowedTypes.contains file.type then
    showError "只支援Excel檔案格式 (.xlsx, .xls)" s
  else if file.size > 50 * 1024 * 1024 then
    showError "檔案大小不能超過50MB" s
  else
    let s := showUploadProgress zone s
    { s with timers := s.timers ++ [Timer.uploadComplete file zone] }

/-- The callback `handleFileUpload` schedules: the progress element goes, a
success alert is shown, the zone displays the file name and is marked
`has-file`. -/
def uploadCompleted (file : File) (zone : Nat) (s : AppState) : AppState :=
  let s := hideUploadProgress zone s
  let s := showSuccess ("檔案上傳成功: " ++ file.name) s
  { s with
    zones := updateZone
      (fun z => { z with fileName := z.fileName.map (fun _ => file.name), hasFile := true })
      zone s.zones }

/-- Runs the callback of a timer. -/
def Timer.fire : Timer → AppState → AppState
  | .closeAlerts, s => { s with alerts := [] }
  | .uploadComplete file zone, s => uploadCompleted file zone s

/-! ## Backtest orchestrator -/

/-- Source: `showBacktestProgress()`. -/
def showBacktestProgress (s : AppState) : AppState :=
  { s with backtestResults := ResultsContent.progress }

/-- Source: `hideBacktestProgress()`: the elements of class `backtest-progress`
are removed. -/
def hideBacktestProgress (s : AppState) : AppState :=
  match s.backtestResults with
  | .progress => { s with backtestResults := ResultsContent.cleared }
  | _ => s

/-- Source: `displayBacktestResults(results)`. -/
def displayBacktestResults (host : Host) (results : BacktestResult) (s : AppState) :
    AppState :=
  { s with backtestResults := ResultsContent.results (renderResults host results),
           resultsFadeIn := true }

/-- The payload `executeBacktest` assembles. -/
def buildFormData (form : BacktestForm) (parameters : ParamMap) (initialCapital : JSNumber)
    (priceFiles stockFiles : List File) : FormData :=
  [("strategy", FormValue.text form.strategy),
   ("parameters", FormValue.json parameters),
   ("data_source", FormValue.text form.dataSource),
   ("stock_source", FormValue.text form.stockSource),
   ("start_date", FormValue.text form.startDate),
   ("end_date", FormValue.text form.endDate),
   ("initial_capital", FormValue.number initialCapital)]
  ++ (match priceFiles.head? with
      | some f => if form.dataSource = .val "excel" then [("price_file", FormValue.file f)] else []
      | none => [])
  ++ (match stockFiles.head? with
      | some f => if form.stockSource = .val "excel" then [("stock_file", FormValue.file f)] else []
      | none => [])

/-- Source: `executeBacktest()`.  The function throws, before it has changed
anything, when one of the two file inputs is missing from the page. -/
def executeBacktest (s : AppState) : Except JSError AppState :=
  if s.isBacktestRunning then
    .ok (showWarning "回測正在執行中，請稍候..." s)
  else if !truthyString s.form.strategy then
    .ok (showError "請選擇策略" s)
  else
    let parameters := collectStrategyParameters s.strategyParameters
    let initialCapital := parseFloat s.form.initialCapital
    if !truthyString s.form.startDate || !truthyString s.form.endDate
        || !initialCapital.truthy then
      .ok (showError "請填寫完整的回測參數" s)
    else
      match s.form.priceFiles, s.form.stockFiles with
      | some priceFiles, some stockFiles =>
        let formData := buildFormData s.form parameters initialCapital priceFiles stockFiles
        let s := { s with isBacktestRunning := true }
        let s := showBacktestProgress s
        .ok (sendRequest (Request.backtestExecute formData) s)
      | _, _ => .error (JSError.typeError "Cannot read properties of undefined")

/-- The body of a backtest response. -/
structure BacktestResponse where
  status : String
  results : Nullable BacktestResult
deriving DecidableEq, Repr

/-- How a backtest request ends: with a response body, or with a failure. -/
inductive BacktestOutcome where
  | done (response : BacktestResponse)
  | fail (xhr : Xhr) (error : String)
deriving DecidableEq, Repr

/-- The `always` callback of `executeBacktest`. -/
def backtestAlways (s : AppState) : AppState :=
  hideBacktestProgress { s with isBacktestRunning := false }

/-- The callbacks `executeBacktest` attached to its request, followed by the
document-wide listener.  On a `success` body without `results` the `done`
callback throws inside `displayBacktestResults`, after the container has been
emptied; jQuery then runs none of the callbacks that follow. -/
def backtestCallbacks (host : Host) (o : BacktestOutcome) (s : AppState) : AppState :=
  match o with
  | .done response =>
    if response.status = "success" then
      match response.results with
      | .val results =>
        globalAjaxSuccess "/api/backtest/execute"
          (backtestAlways (displayBacktestResults host results s))
      | _ => { s with backtestResults := ResultsContent.cleared }
    else
      globalAjaxSuccess "/api/backtest/execute" (backtestAlways s)
  | .fail xhr error =>
    globalAjaxError xhr error
      (backtestAlways (showError (xhr.appendResponseText "執行回測失敗: ") s))

/-! ## Export trigger -/

/-- Source: `exportBacktestResults(exportType)`. -/
def exportBacktestResults (exportType : String) (s : AppState) : AppState :=
  match s.currentBacktestResults with
  | .val results => sendRequest (Request.exportExcel results exportType) s
  | _ => showError "沒有可匯出的回測結果" s

/-- How an export request ends: with the file (the callback then reads the
current date, given here as the `YYYY-MM-DD` text), or with a failure. -/
inductive ExportOutcome where
  | done (today : String)
  | fail (xhr : Xhr) (error : String)
deriving DecidableEq, Repr

/-- The callbacks `exportBacktestResults` attached to its request, followed by
the document-wide listener. -/
def exportCallbacks (o : ExportOutcome) (s : AppState) : AppState :=
  match o with
  | .done today =>
    let s := { s with downloads := s.downloads ++ ["backtest_results_" ++ today ++ ".xlsx"] }
    globalAjaxSuccess "/api/backtest/export-excel" (showSuccess "回測結果匯出成功" s)
  | .fail xhr error =>
    globalAjaxError xhr error (showError (xhr.appendResponseText "匯出失敗: ") s)

/-! ## Status poller -/

/-- The `status_info` object of a status response. -/
structure StatusInfo where
  api_status : Nullable String
  database_status : Nullable String
  auto_trading_status : Nullable String
deriving DecidableEq, Repr

/-- The body of a status response. -/
structure StatusResponse where
  status : String
  status_info : Nullable StatusInfo
deriving DecidableEq, Repr

/-- The call `.removeClass(names)`. -/
def removeClasses (names : List String) (classes : List String) : List String :=
  classes.filter (fun c => !names.contains c)

/-- The call `.addClass(name)`. -/
def addClass (name : String) (classes : List String) : List String :=
  if classes.contains name then classes else classes ++ [name]

/-- The body of the `each` callback of `updateSystemStatusDisplay`, applied to
one indicator. -/
def updateBadge (statusInfo : StatusInfo) (badge : StatusBadge) : StatusBadge :=
  if badge.statusType = "api" then
    { badge with
      text := if statusInfo.api_status = .val "normal" then "正常" else "異常",
      classes := addClass
        (if statusInfo.api_status = .val "normal" then "badge-success" else "badge-danger")
        (removeClasses ["badge-success", "badge-danger"] badge.classes) }
  else if badge.statusType = "database" then
    { badge with
      text := if statusInfo.database_status = .val "normal" then "正常" else "異常",
      classes := addClass
        (if statusInfo.database_status = .val "normal" then "badge-success"
          else "badge-danger")
        (removeClasses ["badge-success", "badge-danger"] badge.classes) }
  else if badge.statusType = "auto-trading" then
    { badge with
      text := if statusInfo.auto_trading_status = .val "running" then "執行中" else "停止",
      classes := addClass
        (if statusInfo.auto_trading_status = .val "running" then "badge-success"
          else "badge-secondary")
        (removeClasses ["badge-success", "badge-secondary"] badge.classes) }
  else badge

/-- Source: `updateSystemStatusDisplay(statusInfo)`. -/
def updateSystemStatusDisplay (statusInfo : StatusInfo) (s : AppState) : AppState :=
  { s with statusBadges := s.statusBadges.map (updateBadge statusInfo) }

/-- How a status request ends: with a response body, or with a failure. -/
inductive StatusOutcome where
  | done (response : StatusResponse)
  | fail (xhr : Xhr) (error : String)
deriving DecidableEq, Repr

/-- The `fail` callback of `checkSystemStatus`: one line on the console. -/
def statusFailed (xhr : Xhr) (s : AppState) : AppState :=
  { s with console := s.console ++ [xhr.appendResponseText "檢查系統狀態失敗: "] }

/-- The callbacks `checkSystemStatus` attached to its request, followed by the
document-wide listener.  On a `success` body without `status_info` the `done`
callback throws at the first indicator of one of the three known types, before
it has changed anything, and the document-wide listener is not reached. -/
def statusCallbacks (o : StatusOutcome) (s : AppState) : AppState :=
  match o with
  | .done response =>
    if response.status = "success" then
      match response.status_info with
      | .val statusInfo =>
        globalAjaxSuccess "/api/system/status" (updateSystemStatusDisplay statusInfo s)
      | _ =>
        if s.statusBadges.any
            (fun b => ["api", "database", "auto-trading"].contains b.statusType) then s
        else globalAjaxSuccess "/api/system/status" s
    else globalAjaxSuccess "/api/system/status" s
  | .fail xhr error => globalAjaxError xhr error (statusFailed xhr s)


/-! ## Page load and the events of the page -/

/-- Source: `checkSystemStatus()`, up to the completion of its request. -/
def checkSystemStatus (s : AppState) : AppState := sendRequest Request.systemStatus s

/-- Source: `loadStrategies()`, up to the completion of its request. -/
def loadStrategies (s : AppState) : AppState := sendRequest Request.strategies s

/-- Source: `initializeApp()`. -/
def initializeApp (s : AppState) : AppState :=
  let s := { s with console := s.console ++ ["交易系統應用程式初始化中..."] }
  let s := checkSystemStatus s
  let s := loadStrategies s
  let s := { s with intervals := s.intervals ++ [Interval.systemStatusPoll] }
  { s with console := s.console ++ ["應用程式初始化完成"] }

/-- Source: `setupGlobalEventListeners()`: the handlers of the upload zones and
the two document-wide ajax listeners are installed. -/
def setupGlobalEventListeners (s : AppState) : AppState :=
  { s with ajaxListeners := true }

/-- The page as served, before the script has run: the script variables hold
their initial values and nothing has been requested or scheduled. -/
def freshPage (form : BacktestForm) (strategyParameters : List Node)
    (zones : List UploadZone) (badges : List StatusBadge) : AppState where
  isBacktestRunning := false
  currentBacktestResults := Nullable.undefined
  form := form
  strategyParameters := strategyParameters
  backtestResults := ResultsContent.page
  resultsFadeIn := false
  zones := zones
  statusBadges := badges
  alerts := []
  timers := []
  intervals := []
  console := []
  requests := []
  pending := []
  ajaxListeners := false
  downloads := []

/-- The `$(document).ready` callback. -/
def documentReady (s : AppState) : AppState :=
  setupGlobalEventListeners (initializeApp s)

/-- What can happen on the loaded page, as far as this development follows it. -/
inductive Event where
  /-- The user edits the backtest inputs and the parameter controls. -/
  | userInput (form : BacktestForm) (strategyParameters : List Node)
  /-- The button bound to `executeBacktest` is pressed. -/
  | executeBacktest
  /-- The pending request with the given index, a backtest request, completes. -/
  | backtestCompletes (index : Nat) (o : BacktestOutcome)
  /-- A button bound to `exportBacktestResults` is pressed. -/
  | exportBacktestResults (exportType : String)
  /-- The pending request with the given index, an export request, completes. -/
  | exportCompletes (index : Nat) (o : ExportOutcome)
  /-- A file is dropped on, or picked for, an upload zone. -/
  | fileChosen (file : File) (zone : Nat)
  /-- The scheduled timer with the given index fires. -/
  | timerFires (index : Nat)
  /-- The thirty-second interval of the status poller ticks. -/
  | statusPollTick
  /-- The pending request with the given index, a status request, completes. -/
  | statusCompletes (index : Nat) (o : StatusOutcome)

/-- The state after an event.  An event that is not enabled (no such pending
request or timer) changes nothing; an exception thrown by `executeBacktest`
ends the handler with the state as it was. -/
def step (host : Host) (s : AppState) : Event → AppState
  | .userInput form strategyParameters =>
    { s with form := form, strategyParameters := strategyParameters }
  | .executeBacktest =>
    match executeBacktest s with
    | .ok s' => s'
    | .error _ => s
  | .backtestCompletes index o =>
    match s.pending.get? index with
    | some (.backtestExecute _) =>
      backtestCallbacks host o { s with pending := s.pending.eraseIdx index }
    | _ => s
  | .exportCompletes index o =>
    match s.pending.get? index with
    | some (.exportExcel _ _) =>
      exportCallbacks o { s with pending := s.pending.eraseIdx index }
    | _ => s
  | .exportBacktestResults exportType => exportBacktestResults exportType s
  | .fileChosen file zone => handleFileUpload file zone s
  | .timerFires index =>
    match s.timers.get? index with
    | some t => t.fire { s with timers := s.timers.eraseIdx index }
    | none => s
  | .statusPollTick =>
    if Interval.systemStatusPoll ∈ s.intervals then checkSystemStatus s else s
  | .statusCompletes index o =>
    match s.pending.get? index with
    | some .systemStatus => statusCallbacks o { s with pending := s.pending.eraseIdx index }
    | _ => s

/-- The states the page can be in: the state right after page load, and every
state an event leads to from such a state. -/
inductive Reachable (host : Host) : AppState → Prop where
  | load (form : BacktestForm) (strategyParameters : List Node) (zones : List UploadZone)
      (badges : List StatusBadge) :
    Reachable host (documentReady (freshPage form strategyParameters zones badges))
  | next (s : AppState) (e : Event) : Reachable host s → Reachable host (step host s e)

/-- The backtest requests that have not completed yet. -/
def backtestsInFlight (s : AppState) : List Request :=
  s.pending.filter Request.isBacktest

/-! ## Locale-sensitive number formatting

`Number.prototype.toLocaleString` for the decimal style, the way engines
compute it: the number is taken as the shortest decimal that is read back as
the same double (the digits of `Number::toString`); this decimal is rounded to
the largest allowed number of fraction digits, ties away from zero; the
integer digits are grouped by threes, trailing fraction zeros are dropped, and
a negative number, negative zero included, gets a minus sign.  The symbols are
those of the locale. -/

/-- The symbols a locale uses to write a decimal number. -/
structure LocaleSymbols where
  group : String
  decimal : String
  nan : String
deriving DecidableEq, Repr

/-- The symbols of the locale `zh-TW`. -/
def LocaleSymbols.zhTW : LocaleSymbols := ⟨",", ".", "非數值"⟩

/-- The symbols of the locale `en-US`. -/
def LocaleSymbols.enUS : LocaleSymbols := ⟨",", ".", "NaN"⟩

/-- The symbols of the locale `de-DE`. -/
def LocaleSymbols.deDE : LocaleSymbols := ⟨".", ",", "NaN"⟩

/-- How often `num` must be multiplied by ten to reach `den`, trying at most
`fuel` times. -/
def shiftsToUnit : Nat → Nat → Nat → Nat
  | 0, _, _ => 0
  | fuel + 1, num, den => if den ≤ num then 0 else shiftsToUnit fuel (num * 10) den + 1

/-- The decimal exponent `n` of the positive rational `num / den`, the one with
`10^(n-1) <= num / den < 10^n`.  The smallest double is above `10^-324`, so
four hundred multiplications by ten reach every double below one. -/
def decimalExponent (num den : Nat) : Int :=
  if den ≤ num then ((Nat.toDigits 10 (num / den)).length : Int)
  else 1 - (shiftsToUnit 400 num den : Int)

/-- The integer part of `num / den / 10^p`. -/
def floorScaled (num den : Nat) (p : Int) : Nat :=
  if 0 ≤ p then num / (den * 10 ^ p.toNat) else (num * 10 ^ (-p).toNat) / den

/-- Whether the decimal `s * 10^p` is read back as the double `m * 2^e`. -/
def readsBackAs (s : Nat) (p : Int) (m : Nat) (e : Int) : Bool :=
  match (if 0 ≤ p then JSNumber.roundDyadic false (s * 10 ^ p.toNat) 0
         else JSNumber.roundRatio false s (10 ^ (-p).toNat)) with
  | .fin _ m' e' => m' != 0 && JSNumber.sameMagnitude m' e' m e
  | _ => false

/-- Whether `s * 10^p` is nearer to `num / den` than `(s + 1) * 10^p`, the even
one of the two counting as nearer on a tie. -/
def lowerIsNearer (num den s : Nat) (p : Int) : Bool :=
  let below :=
    if 0 ≤ p then num - s * (den * 10 ^ p.toNat) else num * 10 ^ (-p).toNat - s * den
  let above :=
    if 0 ≤ p then (s + 1) * (den * 10 ^ p.toNat) - num
    else (s + 1) * den - num * 10 ^ (-p).toNat
  below < above || (below == above && s % 2 == 0)

/-- The decimal `s * 10^p` without its last digit when that digit is a zero. -/
def dropLastZero (s : Nat) (p : Int) : Nat × Int :=
  if s % 10 = 0 then (s / 10, p + 1) else (s, p)

/-- The decimal `s * 10^p` with `k` digits that is read back as `m * 2^e`, when
there is one; the nearer one when there are two.  The upper candidate may be
the next power of ten, which is then written with one digit. -/
def shortestWith (m : Nat) (e : Int) (k : Nat) : Option (Nat × Int) :=
  let num := if 0 ≤ e then m * 2 ^ e.toNat else m
  let den := if 0 ≤ e then 1 else 2 ^ (-e).toNat
  let p := decimalExponent num den - (k : Int)
  let lo := floorScaled num den p
  if readsBackAs lo p m e then
    if readsBackAs (lo + 1) p m e && !lowerIsNearer num den lo p then
      some (dropLastZero (lo + 1) p)
    else some (lo, p)
  else if readsBackAs (lo + 1) p m e then some (dropLastZero (lo + 1) p)
  else none

/-- The shortest decimal `s * 10^p` that is read back as the positive double
`m * 2^e`: the digits of `Number::toString`.  Seventeen digits suffice for
every double. -/
def shortestDecimal (m : Nat) (e : Int) : Nat × Int :=
  match (List.range 17).findSome? (fun i => shortestWith m e (i + 1)) with
  | some d => d
  | none =>
    (floorScaled (if 0 ≤ e then m * 2 ^ e.toNat else m) (if 0 ≤ e then 1 else 2 ^ (-e).toNat)
        (decimalExponent (if 0 ≤ e then m * 2 ^ e.toNat else m)
          (if 0 ≤ e then 1 else 2 ^ (-e).toNat) - 17),
      decimalExponent (if 0 ≤ e then m * 2 ^ e.toNat else m)
        (if 0 ≤ e then 1 else 2 ^ (-e).toNat) - 17)

/-- The conversion `Number::toString(x)` in base ten: the shortest digits that
are read back as the number, laid out plainly for a decimal exponent from `-5`
to `21` and in exponent form otherwise. -/
def numberToString : JSNumber → String
  | .nan => "NaN"
  | .inf neg => if neg then "-Infinity" else "Infinity"
  | .fin neg m e =>
    if m = 0 then "0" else
      let digits := Nat.toDigits 10 (shortestDecimal m e).1
      let n : Int := (shortestDecimal m e).2 + (digits.length : Int)
      (if neg then "-" else "") ++
        (if (digits.length : Int) ≤ n ∧ n ≤ 21 then
          String.mk (digits ++ List.replicate (n - (digits.length : Int)).toNat '0')
        else if 0 < n ∧ n ≤ 21 then
          String.mk (digits.take n.toNat ++ '.' :: digits.drop n.toNat)
        else if -6 < n ∧ n ≤ 0 then
          String.mk ('0' :: '.' :: (List.replicate (-n).toNat '0' ++ digits))
        else
          String.mk
            ((if digits.length = 1 then digits else digits.take 1 ++ '.' :: digits.drop 1)
              ++ 'e' :: (if n - 1 < 0 then '-' else '+') :: Nat.toDigits 10 (n - 1).natAbs))


/-- The decimal `s * 10^p` rounded to the given number of fraction digits, ties
away from zero, counted in units of the last digit kept. -/
def roundedUnits (places : Nat) (s : Nat) (p : Int) : Nat :=
  if 0 ≤ p + (places : Int) then s * 10 ^ (p + (places : Int)).toNat
  else (2 * s + 10 ^ (-(p + (places : Int))).toNat) / (2 * 10 ^ (-(p + (places : Int))).toNat)

/-- Puts the separator before every group of three digits counted from the
right, the leftmost group excepted. -/
def insertGroups (sep : List Char) : List Char → List Char
  | [] => []
  | c :: cs =>
    if cs.length % 3 = 0 ∧ cs ≠ [] then c :: (sep ++ insertGroups sep cs)
    else c :: insertGroups sep cs

/-- The decimal digits of `n`, grouped by threes. -/
def groupThousands (sep : String) (n : Nat) : String :=
  String.mk (insertGroups sep.toList (Nat.repr n).toList)

/-- The digits of `f` thousandths (`f < 1000`) without trailing zeros. -/
def fractionDigits3 (f : Nat) : String :=
  String.mk
    (([Nat.digitChar (f / 100), Nat.digitChar (f / 10 % 10),
       Nat.digitChar (f % 10)].reverse.dropWhile (fun c => c == '0')).reverse)

/-- The thousandths shown for the magnitude `m * 2^e`. -/
def shownThousandths (m : Nat) (e : Int) : Nat :=
  if m = 0 then 0 else roundedUnits 3 (shortestDecimal m e).1 (shortestDecimal m e).2

/-- The call `x.toLocaleString()` in a locale with the given symbols: at most
three fraction digits. -/
def localeString (sym : LocaleSymbols) : JSNumber → String
  | .nan => sym.nan
  | .inf neg => (if neg then "-" else "") ++ "∞"
  | .fin neg m e =>
    (if neg then "-" else "")
      ++ groupThousands sym.group (shownThousandths m e / 1000)
      ++ (if shownThousandths m e % 1000 = 0 then ""
          else sym.decimal ++ fractionDigits3 (shownThousandths m e % 1000))

/-- The call `x.toLocaleString(locale, opts)` with `minimumFractionDigits` and
`maximumFractionDigits` both `0`, in a locale with the given symbols. -/
def localeInteger (sym : LocaleSymbols) : JSNumber → String
  | .nan => sym.nan
  | .inf neg => (if neg then "-" else "") ++ "∞"
  | .fin neg m e =>
    (if neg then "-" else "")
      ++ groupThousands sym.group
          (if m = 0 then 0
           else roundedUnits 0 (shortestDecimal m e).1 (shortestDecimal m e).2)

/-! ## Vocabulary of the properties -/

/-- A form field counts as missing when its element is absent, has no value, or
holds the empty string. -/
def isMissing : Nullable String → Bool
  | .val s => s == ""
  | _ => true

/-- The part of the state that the single-submission guard and the export rely
on: the running flag, the cached result, the calls made and the calls pending. -/
def AppState.ledger (s : AppState) :
    Bool × Nullable BacktestResult × List Request × List Request :=
  (s.isBacktestRunning, s.currentBacktestResults, s.requests, s.pending)

/-- The invariant behind the single-submission guard: at most one backtest
request is in flight, none while `isBacktestRunning` is false, and the cached
result has never been assigned. -/
def GuardInvariant (s : AppState) : Prop :=
  (backtestsInFlight s).length ≤ 1 ∧
  (s.isBacktestRunning = false → backtestsInFlight s = []) ∧
  s.currentBacktestResults = Nullable.undefined

/-- The value `renderStrategyParameters` sets on the control of a parameter that
is not a `select`: the checked state of a checkbox, the `value` of an input. -/
def initialValue (host : Host) (param : ParamSpec) : ParamValue :=
  if param.type = "number" then .str (param.default.orText host "")
  else if param.type = "boolean" then .bool param.default.truthy
  else .str (param.default.orText host "")

/-- A number of hundredths written with exactly two decimal places: the digits
of the integer part, a point, and two digits. -/
def hundredthsText (n : Nat) : String :=
  Nat.repr (n / 100) ++ "." ++ String.mk [Nat.digitChar (n / 10 % 10), Nat.digitChar (n % 10)]

/-- The comparison `x < 0` (false for `NaN` and for both zeros). -/
def JSNumber.ltZero : JSNumber → Bool
  | .nan => false
  | .inf neg => neg
  | .fin neg m _ => neg && m != 0

/-- The comparison `v < 0` on a field that may be absent: `null` converts to
`0`, `undefined` to `NaN`. -/
def ltZeroField : Nullable JSNumber → Bool
  | .val x => x.ltZero
  | _ => false


/-! ## Sample inputs -/

/-- A host whose engine- and locale-dependent operations return fixed texts,
for the evaluations in which these operations play no part. -/
def sampleHost : Host where
  numberToString := fun _ => "#"
  toLocaleStringDefault := fun _ => "#"
  toLocaleStringInteger := fun _ _ => "#"
  toLocaleDateString := fun _ _ => "#"

/-- A text file of ten bytes. -/
def textFile : File := ⟨"notes.txt", "text/plain", 10⟩

/-- A text file one byte above the size limit. -/
def bigTextFile : File := ⟨"dump.txt", "text/plain", 52428801⟩

/-- A workbook one byte above the size limit. -/
def bigWorkbook : File :=
  ⟨"prices.xlsx", "application/vnd.openxmlformats-officedocument.spreadsheetml.sheet", 52428801⟩

/-- A workbook of exactly 50 MiB. -/
def limitWorkbook : File :=
  ⟨"prices.xlsx", "application/vnd.openxmlformats-officedocument.spreadsheetml.sheet", 52428800⟩

/-- An upload zone that displays a previously accepted file. -/
def filledZone : UploadZone := ⟨some "old.xlsx", true, false, false⟩

/-- A completely filled backtest form. -/
def filledForm : BacktestForm where
  strategy := .val "ma_cross"
  dataSource := .val "excel"
  stockSource := .val "list"
  startDate := .val "2024-01-01"
  endDate := .val "2024-06-30"
  initialCapital := .val "1000000"
  priceFiles := some []
  stockFiles := some []

/-- The three indicators of the status bar, as served. -/
def sampleBadges : List StatusBadge :=
  [⟨"api", "檢查中", ["badge", "system-status", "badge-secondary"]⟩,
   ⟨"database", "檢查中", ["badge", "system-status", "badge-secondary"]⟩,
   ⟨"auto-trading", "檢查中", ["badge", "system-status", "badge-secondary"]⟩]

/-- The page right after load, with a filled form, one upload zone that
displays a file and the three status indicators. -/
def loadedPage : AppState :=
  documentReady (freshPage filledForm [] [filledZone] sampleBadges)

/-- The loaded page after the backtest button has been pressed once: the
request is in flight. -/
def runningPage : AppState := step sampleHost loadedPage Event.executeBacktest

/-- A backtest result with ten trades in the statistics and no trade records. -/
def sampleResult : BacktestResult where
  total_trades := .fin false 10 0
  win_rate := .fin false 5404319552844595 (-53)
  total_profit_loss_rate := .fin false 1 (-3)
  max_drawdown_rate := .fin true 5764607523034235 (-56)
  sharpe_ratio := .fin false 6395111470866104 (-52)
  total_profit_loss := .fin false 125000 0
  trade_records := .undefined
  charts := .undefined
  equity_curve := .undefined

/-- A schema with a `select` parameter `mode` and a `number` parameter
`window`. -/
def selectSchema : ParameterSchema :=
  [("mode",
    { type := "select", default := .str "fast", min := .undefined, max := .undefined,
      step := .undefined,
      options := [⟨.str "fast", .str "Fast"⟩, ⟨.str "slow", .str "Slow"⟩],
      required := .bool false, description := .undefined, label := .str "Mode" }),
   ("window",
    { type := "number", default := .str "20", min := .undefined, max := .undefined,
      step := .undefined, options := [], required := .bool true,
      description := .undefined, label := .undefined })]

/-- A browser whose default locale writes numbers with the given symbols; the
tag `zh-TW`, the only one the script passes, selects the symbols of that
locale.  Dates are the fixed text of `sampleHost`. -/
def browserHost (sym : LocaleSymbols) : Host :=
  { sampleHost with
    numberToString := numberToString,
    toLocaleStringDefault := localeString sym,
    toLocaleStringInteger := fun tag =>
      localeInteger (if tag = "zh-TW" then LocaleSymbols.zhTW else sym) }

/-- A closed long trade that lost 500. -/
def losingTrade : TradeRecord where
  entry_date := .val "2024-01-05"
  exit_date := .val "2024-01-12"
  stock_id := "2330"
  trade_direction := "buy"
  entry_price := .val (.fin false 600 0)
  exit_price := .val (.fin false 595 0)
  shares := .fin false 100 0
  profit_loss := .val (.fin true 500 0)
  profit_loss_rate := .val (.fin true 4803839602528529 (-59))
  net_profit_loss := .val (.fin true 585 0)

/-- A closed short trade that gained 1200. -/
def winningTrade : TradeRecord where
  entry_date := .val "2024-02-01"
  exit_date := .val "2024-02-09"
  stock_id := "2317"
  trade_direction := "sell"
  entry_price := .val (.fin false 105 0)
  exit_price := .val (.fin false 99 0)
  shares := .fin false 200 0
  profit_loss := .val (.fin false 1200 0)
  profit_loss_rate := .val (.fin false 8235153604334621 (-57))
  net_profit_loss := .val (.fin false 1150 0)

/-- The sample result with two trade records. -/
def tradedResult : BacktestResult :=
  { sampleResult with trade_records := .val [losingTrade, winningTrade] }


/-! ## Theorems -/

/-- C9: `formatPrice`, `formatMoney`, `formatPercentage` and `formatDate` are
total, and each returns the placeholder `-` for `null` and for `undefined`. -/
theorem formatters_placeholder_on_nullish (host : Host) :
    formatPrice host .null = "-" ∧ formatPrice host .undefined = "-" ∧
    formatMoney host .null = "-" ∧ formatMoney host .undefined = "-" ∧
    formatPercentage host .null = "-" ∧ formatPercentage host .undefined = "-" ∧
    formatDate host .null = "-" ∧ formatDate host .undefined = "-" :=
  ⟨rfl, rfl, rfl, rfl, rfl, rfl, rfl, rfl⟩

/-- The integer chosen by `toFixed(2)` is exact for a value without binary
fraction digits; otherwise it is the `n` with `n <= 100 * x + 1/2 < n + 1`, the
nearest to `100 * x` and the larger one on a tie. -/
theorem nearestHundredths_spec (m : Nat) (e : Int) :
    (0 ≤ e → JSNumber.nearestHundredths m e = m * 2 ^ e.toNat * 100) ∧
    (e < 0 →
      2 * 2 ^ (-e).toNat * JSNumber.nearestHundredths m e
        ≤ 2 * (m * 100) + 2 ^ (-e).toNat ∧
      2 * (m * 100) + 2 ^ (-e).toNat
        < 2 * 2 ^ (-e).toNat * (JSNumber.nearestHundredths m e + 1)) := by
  refine ⟨fun h => ?_, fun h => ?_⟩
  · simp [JSNumber.nearestHundredths, h]
  · have hne : ¬ 0 ≤ e := by omega
    simp only [JSNumber.nearestHundredths, hne, if_false]
    have hpos : 0 < 2 * 2 ^ (-e).toNat := by positivity
    exact ⟨Nat.mul_div_le _ _, Nat.lt_mul_div_succ _ hpos⟩

/-- For a number, `formatPercentage` never returns the placeholder: its result
ends with the percent sign. -/
theorem formatPercentage_ne_placeholder (host : Host) (x : JSNumber) :
    formatPercentage host (.val x) ≠ "-" := by
  intro h
  have hd := congrArg String.toList h
  simp only [formatPercentage, String.toList, String.data_append] at hd
  have hl := congrArg List.getLast? hd
  simp at hl

/-- C10: at the numeric price `0` (and at `-0` and `NaN`) `formatPrice` returns
the placeholder `-` instead of `0.00`, while `formatPercentage` formats the same
number `0` as `0.00%` and returns the placeholder for no number at all. -/
theorem formatPrice_zero_is_placeholder (host : Host) :
    formatPrice host (.val (.fin false 0 0)) = "-" ∧
    formatPrice host (.val (.fin true 0 0)) = "-" ∧
    formatPrice host (.val .nan) = "-" ∧
    formatPercentage host (.val (.fin false 0 0)) = "0.00%" ∧
    (∀ x, formatPercentage host (.val x) ≠ "-") :=
  ⟨rfl, rfl, rfl, rfl, formatPercentage_ne_placeholder host⟩

/-- Showing an alert leaves the upload zones, the intervals and the network
calls as they are and schedules one timer, the one that closes the alerts. -/
theorem showAlert_frame (type message : String) (s : AppState) :
    (showAlert type message s).zones = s.zones ∧
    (showAlert type message s).intervals = s.intervals ∧
    (showAlert type message s).timers = s.timers ++ [Timer.closeAlerts] ∧
    (showAlert type message s).requests = s.requests ∧
    (showAlert type message s).pending = s.pending ∧
    (showAlert type message s).isBacktestRunning = s.isBacktestRunning ∧
    (showAlert type message s).currentBacktestResults = s.currentBacktestResults ∧
    (showAlert type message s).alerts = ⟨type, message⟩ :: s.alerts :=
  ⟨rfl, rfl, rfl, rfl, rfl, rfl, rfl, rfl⟩

/-- The branch of `handleFileUpload` taken by a file of a type that is not
allowed. -/
theorem handleFileUpload_of_type_not_allowed (file : File) (zone : Nat) (s : AppState)
    (h : allowedTypes.contains file.type = false) :
    handleFileUpload file zone s = showError "只支援Excel檔案格式 (.xlsx, .xls)" s := by
  unfold handleFileUpload
  rw [h]
  rfl

/-- The branches of `handleFileUpload` taken by a file of an allowed type. -/
theorem handleFileUpload_of_type_allowed (file : File) (zone : Nat) (s : AppState)
    (h : allowedTypes.contains file.type = true) :
    handleFileUpload file zone s =
      if file.size > 50 * 1024 * 1024 then showError "檔案大小不能超過50MB" s
      else { showUploadProgress zone s with
             timers := s.timers ++ [Timer.uploadComplete file zone] } := by
  unfold handleFileUpload
  rw [h]
  rfl

/-- C7: a file whose MIME type is not one of the two spreadsheet types, of any
size, only gets the type error alert: the zones (file name, `has-file` mark and
progress element) stay as they are, no interval is started, no network call is
made, the one timer scheduled is the alert's own, and that timer leaves the
zones alone when it fires. -/
theorem handleFileUpload_rejects_type (file : File) (zone : Nat) (s : AppState)
    (h : file.type ∉ allowedTypes) :
    handleFileUpload file zone s = showError "只支援Excel檔案格式 (.xlsx, .xls)" s ∧
    (handleFileUpload file zone s).zones = s.zones ∧
    (handleFileUpload file zone s).intervals = s.intervals ∧
    (handleFileUpload file zone s).timers = s.timers ++ [Timer.closeAlerts] ∧
    (handleFileUpload file zone s).requests = s.requests ∧
    (Timer.closeAlerts.fire (handleFileUpload file zone s)).zones = s.zones := by
  have hc : allowedTypes.contains file.type = false := by simpa using h
  rw [handleFileUpload_of_type_not_allowed file zone s hc]
  exact ⟨rfl, rfl, rfl, rfl, rfl, rfl⟩

/-- Witness of C7: a text file dropped on the zone of the loaded page. -/
theorem handleFileUpload_rejects_type_witness :
    textFile.type ∉ allowedTypes ∧
    (handleFileUpload textFile 0 loadedPage).zones = [filledZone] ∧
    (handleFileUpload textFile 0 loadedPage).intervals = loadedPage.intervals :=
  ⟨by decide,
   (handleFileUpload_rejects_type textFile 0 loadedPage (by decide)).2.1,
   (handleFileUpload_rejects_type textFile 0 loadedPage (by decide)).2.2.1⟩

/-- C8, as stated, fails: a text file above the size limit is rejected with
the type error message, not with the size error message. -/
theorem oversized_text_file_gets_type_error :
    52428800 < bigTextFile.size ∧
    (handleFileUpload bigTextFile 0 loadedPage).alerts
      = [⟨"danger", "只支援Excel檔案格式 (.xlsx, .xls)"⟩] ∧
    (handleFileUpload bigTextFile 0 loadedPage).alerts
      ≠ ⟨"danger", "檔案大小不能超過50MB"⟩ :: loadedPage.alerts := by
  decide

/-- C8, amended: a file above 52428800 bytes leaves the zones as they are,
whatever its type, and gets the size error message when its type is allowed; a
file of an allowed type of exactly 52428800 bytes is accepted: its progress
element is shown and its completion is scheduled, with no alert. -/
theorem handleFileUpload_size_limit (file : File) (zone : Nat) (s : AppState) :
    (52428800 < file.size →
      (handleFileUpload file zone s).zones = s.zones ∧
      (handleFileUpload file zone s).intervals = s.intervals ∧
      (handleFileUpload file zone s).timers = s.timers ++ [Timer.closeAlerts]) ∧
    (file.type ∈ allowedTypes → 52428800 < file.size →
      handleFileUpload file zone s = showError "檔案大小不能超過50MB" s) ∧
    (file.type ∈ allowedTypes → file.size = 52428800 →
      handleFileUpload file zone s =
        { showUploadProgress zone s with
          timers := s.timers ++ [Timer.uploadComplete file zone] } ∧
      (handleFileUpload file zone s).alerts = s.alerts) := by
  refine ⟨fun hsize => ?_, fun htype hsize => ?_, fun htype hsize => ?_⟩
  · by_cases hc : allowedTypes.contains file.type = true
    · rw [handleFileUpload_of_type_allowed file zone s hc, if_pos (by omega)]
      exact ⟨rfl, rfl, rfl⟩
    · rw [handleFileUpload_of_type_not_allowed file zone s (by simpa using hc)]
      exact ⟨rfl, rfl, rfl⟩
  · have hc : allowedTypes.contains file.type = true := by simpa using htype
    rw [handleFileUpload_of_type_allowed file zone s hc, if_pos (by omega)]
  · have hc : allowedTypes.contains file.type = true := by simpa using htype
    rw [handleFileUpload_of_type_allowed file zone s hc, if_neg (by omega)]
    exact ⟨rfl, rfl⟩

/-- Witness of C8: a workbook one byte above the limit and a workbook of
exactly the limit, on the zone of the loaded page. -/
theorem handleFileUpload_size_limit_witness :
    (52428800 < bigWorkbook.size ∧ bigWorkbook.type ∈ allowedTypes ∧
      (handleFileUpload bigWorkbook 0 loadedPage).zones = [filledZone] ∧
      handleFileUpload bigWorkbook 0 loadedPage
        = showError "檔案大小不能超過50MB" loadedPage) ∧
    (limitWorkbook.size = 52428800 ∧ limitWorkbook.type ∈ allowedTypes ∧
      (handleFileUpload limitWorkbook 0 loadedPage).alerts = []) :=
  ⟨⟨by decide, by decide,
    ((handleFileUpload_size_limit bigWorkbook 0 loadedPage).1 (by decide)).1,
    (handleFileUpload_size_limit bigWorkbook 0 loadedPage).2.1 (by decide) (by decide)⟩,
   ⟨rfl, by decide,
    ((handleFileUpload_size_limit limitWorkbook 0 loadedPage).2.2 (by decide) rfl).2⟩⟩

/-! ### Frame lemmas: what the helpers leave alone -/

@[simp] theorem ledger_showAlert (type message : String) (s : AppState) :
    (showAlert type message s).ledger = s.ledger := rfl

@[simp] theorem ledger_showError (message : String) (s : AppState) :
    (showError message s).ledger = s.ledger := rfl

@[simp] theorem ledger_showSuccess (message : String) (s : AppState) :
    (showSuccess message s).ledger = s.ledger := rfl

@[simp] theorem ledger_showWarning (message : String) (s : AppState) :
    (showWarning message s).ledger = s.ledger := rfl

@[simp] theorem ledger_handleAjaxError (xhr : Xhr) (error : String) (s : AppState) :
    (handleAjaxError xhr error s).ledger = s.ledger := by
  unfold handleAjaxError
  split_ifs <;> rfl

@[simp] theorem ledger_globalAjaxError (xhr : Xhr) (error : String) (s : AppState) :
    (globalAjaxError xhr error s).ledger = s.ledger := by
  unfold globalAjaxError
  split_ifs
  · exact ledger_handleAjaxError xhr error s
  · rfl

@[simp] theorem ledger_globalAjaxSuccess (url : String) (s : AppState) :
    (globalAjaxSuccess url s).ledger = s.ledger := by
  unfold globalAjaxSuccess
  split_ifs <;> rfl

@[simp] theorem alerts_globalAjaxSuccess (url : String) (s : AppState) :
    (globalAjaxSuccess url s).alerts = s.alerts := by
  unfold globalAjaxSuccess
  split_ifs <;> rfl

@[simp] theorem backtestResults_globalAjaxSuccess (url : String) (s : AppState) :
    (globalAjaxSuccess url s).backtestResults = s.backtestResults := by
  unfold globalAjaxSuccess
  split_ifs <;> rfl

@[simp] theorem backtestResults_globalAjaxError (xhr : Xhr) (error : String) (s : AppState) :
    (globalAjaxError xhr error s).backtestResults = s.backtestResults := by
  unfold globalAjaxError handleAjaxError
  split_ifs <;> rfl

/-- The document-wide error listener only adds alerts in front of those shown. -/
theorem alerts_globalAjaxError (xhr : Xhr) (error : String) (s : AppState) :
    ∃ added, (globalAjaxError xhr error s).alerts = added ++ s.alerts := by
  unfold globalAjaxError handleAjaxError
  split_ifs
  · exact ⟨[_], rfl⟩
  · exact ⟨[_], rfl⟩
  · exact ⟨[_], rfl⟩
  · exact ⟨[_], rfl⟩
  · exact ⟨[_], rfl⟩
  · exact ⟨[], rfl⟩

/-- After `hideBacktestProgress` the results container holds no spinner. -/
theorem hideBacktestProgress_clears (s : AppState) :
    (hideBacktestProgress s).backtestResults ≠ ResultsContent.progress := by
  unfold hideBacktestProgress
  split
  · simp
  · assumption

@[simp] theorem alerts_hideBacktestProgress (s : AppState) :
    (hideBacktestProgress s).alerts = s.alerts := by
  unfold hideBacktestProgress
  split <;> rfl

@[simp] theorem ledger_hideBacktestProgress (s : AppState) :
    (hideBacktestProgress s).ledger = s.ledger := by
  unfold hideBacktestProgress
  split <;> rfl

/-- The `always` callback resets the running flag, removes the spinner and
leaves the cached result, the calls and the alerts alone. -/
theorem backtestAlways_spec (s : AppState) :
    (backtestAlways s).isBacktestRunning = false ∧
    (backtestAlways s).backtestResults ≠ ResultsContent.progress ∧
    (backtestAlways s).alerts = s.alerts ∧
    (backtestAlways s).currentBacktestResults = s.currentBacktestResults ∧
    (backtestAlways s).requests = s.requests ∧
    (backtestAlways s).pending = s.pending := by
  have hl := ledger_hideBacktestProgress { s with isBacktestRunning := false }
  simp only [AppState.ledger, Prod.mk.injEq] at hl
  refine ⟨hl.1, hideBacktestProgress_clears _, ?_, hl.2.1, hl.2.2.1, hl.2.2.2⟩
  simp [backtestAlways]

/-! ### Backtest orchestrator: validation -/

/-- A missing field is falsy. -/
theorem truthyString_of_isMissing (v : Nullable String) (h : isMissing v = true) :
    truthyString v = false := by
  cases v with
  | undefined => rfl
  | null => rfl
  | val s =>
    have hs : s = "" := by simpa [isMissing] using h
    subst hs
    rfl

/-- A missing field parses to `NaN`, which is falsy. -/
theorem parseFloat_of_isMissing (v : Nullable String) (h : isMissing v = true) :
    (parseFloat v).truthy = false := by
  cases v with
  | undefined => rfl
  | null => rfl
  | val s =>
    have hs : s = "" := by simpa [isMissing] using h
    subst hs
    rfl

/-- C2: when no backtest is running and the strategy, the start date, the end
date or the initial capital is missing, `executeBacktest` returns normally, its
only effect is an error alert (`請選擇策略` for the strategy, `請填寫完整的回測參數`
otherwise): no network call is made and `isBacktestRunning` stays false. -/
theorem executeBacktest_missing_field (s : AppState)
    (hidle : s.isBacktestRunning = false)
    (hmissing : isMissing s.form.strategy = true ∨ isMissing s.form.startDate = true ∨
      isMissing s.form.endDate = true ∨ isMissing s.form.initialCapital = true) :
    ∃ s', executeBacktest s = .ok s' ∧
      s' = showError
        (if truthyString s.form.strategy then "請填寫完整的回測參數" else "請選擇策略") s ∧
      s'.requests = s.requests ∧ s'.pending = s.pending ∧
      s'.isBacktestRunning = false := by
  refine ⟨_, ?_, rfl, rfl, rfl, hidle⟩
  unfold executeBacktest
  rw [hidle]
  by_cases hs : truthyString s.form.strategy = true
  · have hrest : (!truthyString s.form.startDate || !truthyString s.form.endDate
        || !(parseFloat s.form.initialCapital).truthy) = true := by
      rcases hmissing with h | h | h | h
      · rw [truthyString_of_isMissing _ h] at hs
        exact absurd hs (by decide)
      · rw [truthyString_of_isMissing _ h]
        rfl
      · rw [truthyString_of_isMissing _ h]
        simp
      · rw [parseFloat_of_isMissing _ h]
        simp
    simp only [hs, hrest]
    rfl
  · have hs' : truthyString s.form.strategy = false := by simpa using hs
    simp only [hs']
    rfl

/-- Witness of C2: the loaded page with the start date removed from the form. -/
theorem executeBacktest_missing_field_witness :
    ∃ s', executeBacktest
        { loadedPage with form := { filledForm with startDate := .val "" } } = .ok s' ∧
      s'.alerts = [⟨"danger", "請填寫完整的回測參數"⟩] ∧
      s'.requests = loadedPage.requests ∧ s'.isBacktestRunning = false := by
  obtain ⟨s', h, hs', hr, _, hb⟩ := executeBacktest_missing_field
    { loadedPage with form := { filledForm with startDate := .val "" } } rfl
    (Or.inr (Or.inl rfl))
  exact ⟨s', h, by rw [hs']; rfl, hr, hb⟩

/-! ### Export trigger -/

/-- C4: without a cached result (`undefined` or `null`) `exportBacktestResults`
shows the error `沒有可匯出的回測結果` and makes no network call, whatever the
export type; and neither the call nor the callbacks of its request ever change
the cached result. -/
theorem exportBacktestResults_needs_cache (exportType : String) (s : AppState) :
    (s.currentBacktestResults.isNullish = true →
      exportBacktestResults exportType s = showError "沒有可匯出的回測結果" s ∧
      (exportBacktestResults exportType s).requests = s.requests ∧
      (exportBacktestResults exportType s).pending = s.pending) ∧
    (exportBacktestResults exportType s).currentBacktestResults
      = s.currentBacktestResults ∧
    (∀ o, (exportCallbacks o s).currentBacktestResults = s.currentBacktestResults) := by
  refine ⟨fun h => ?_, ?_, fun o => ?_⟩
  · have hr : exportBacktestResults exportType s = showError "沒有可匯出的回測結果" s := by
      unfold exportBacktestResults
      cases hc : s.currentBacktestResults with
      | undefined => rfl
      | null => rfl
      | val r => rw [hc] at h; exact absurd h (by simp [Nullable.isNullish])
    rw [hr]
    exact ⟨rfl, rfl, rfl⟩
  · unfold exportBacktestResults
    split <;> rfl
  · cases o with
    | done today =>
      have h := ledger_globalAjaxSuccess "/api/backtest/export-excel"
        (showSuccess "回測結果匯出成功"
          { s with downloads := s.downloads ++ ["backtest_results_" ++ today ++ ".xlsx"] })
      simp only [AppState.ledger, Prod.mk.injEq] at h
      exact h.2.1
    | fail xhr error =>
      have h := ledger_globalAjaxError xhr error
        (showError (xhr.appendResponseText "匯出失敗: ") s)
      simp only [AppState.ledger, Prod.mk.injEq] at h
      exact h.2.1

/-- Witness of C4: an export requested on the page right after load. -/
theorem exportBacktestResults_needs_cache_witness :
    loadedPage.currentBacktestResults.isNullish = true ∧
    exportBacktestResults "detailed" loadedPage
      = showError "沒有可匯出的回測結果" loadedPage ∧
    (exportBacktestResults "detailed" loadedPage).requests = loadedPage.requests :=
  ⟨rfl,
   ((exportBacktestResults_needs_cache "detailed" loadedPage).1 rfl).1,
   ((exportBacktestResults_needs_cache "detailed" loadedPage).1 rfl).2.1⟩

/-! ### The single-submission guard -/

/-- Removing a pending request that fails a test keeps the requests passing it. -/
theorem filter_eraseIdx_of_false {α : Type} (p : α → Bool) :
    ∀ (l : List α) (i : Nat) (x : α), l.get? i = some x → p x = false →
      (l.eraseIdx i).filter p = l.filter p
  | [], _, _, h, _ => by simp at h
  | a :: l, 0, x, h, hx => by
    have ha : a = x := by simpa using h
    subst ha
    simp [List.filter, hx]
  | a :: l, i + 1, x, h, hx => by
    have ih := filter_eraseIdx_of_false p l i x (by simpa using h) hx
    simp [List.filter, ih]

/-- Removing a pending request that passes a test removes one of the requests
passing it. -/
theorem length_filter_eraseIdx_of_true {α : Type} (p : α → Bool) :
    ∀ (l : List α) (i : Nat) (x : α), l.get? i = some x → p x = true →
      (l.filter p).length = ((l.eraseIdx i).filter p).length + 1
  | [], _, _, h, _ => by simp at h
  | a :: l, 0, x, h, hx => by
    have ha : a = x := by simpa using h
    subst ha
    simp [List.filter, hx]
  | a :: l, i + 1, x, h, hx => by
    have ih := length_filter_eraseIdx_of_true p l i x (by simpa using h) hx
    cases hpa : p a <;> simp [List.filter, hpa, ih]

@[simp] theorem ledger_handleFileUpload (file : File) (zone : Nat) (s : AppState) :
    (handleFileUpload file zone s).ledger = s.ledger := by
  unfold handleFileUpload
  split_ifs <;> rfl

@[simp] theorem ledger_timer_fire (t : Timer) (s : AppState) :
    (t.fire s).ledger = s.ledger := by
  cases t <;> rfl

/-- The callbacks of an export request leave the ledger alone. -/
theorem ledger_exportCallbacks (o : ExportOutcome) (s : AppState) :
    (exportCallbacks o s).ledger = s.ledger := by
  cases o with
  | done today =>
    unfold exportCallbacks
    simp only
    rw [ledger_globalAjaxSuccess, ledger_showSuccess]
    rfl
  | fail xhr error =>
    unfold exportCallbacks
    simp only
    rw [ledger_globalAjaxError, ledger_showError]

/-- The callbacks of a status request leave the ledger alone. -/
theorem ledger_statusCallbacks (o : StatusOutcome) (s : AppState) :
    (statusCallbacks o s).ledger = s.ledger := by
  cases o with
  | done response =>
    unfold statusCallbacks
    simp only
    split_ifs <;> try split
    all_goals first
      | rfl
      | exact ledger_globalAjaxSuccess _ _
  | fail xhr error =>
    unfold statusCallbacks
    simp only
    rw [ledger_globalAjaxError]
    rfl

/-- The callbacks of a backtest request never write the cached result and
never touch the calls made or pending; they leave the running flag false,
except on a `success` body without results, where it keeps its value. -/
theorem backtestCallbacks_frame (host : Host) (o : BacktestOutcome) (s : AppState) :
    (backtestCallbacks host o s).currentBacktestResults = s.currentBacktestResults ∧
    (backtestCallbacks host o s).requests = s.requests ∧
    (backtestCallbacks host o s).pending = s.pending ∧
    ((backtestCallbacks host o s).isBacktestRunning = false ∨
      (backtestCallbacks host o s).isBacktestRunning = s.isBacktestRunning) := by
  have key : ∀ url (t : AppState),
      (globalAjaxSuccess url (backtestAlways t)).currentBacktestResults
        = t.currentBacktestResults ∧
      (globalAjaxSuccess url (backtestAlways t)).requests = t.requests ∧
      (globalAjaxSuccess url (backtestAlways t)).pending = t.pending ∧
      (globalAjaxSuccess url (backtestAlways t)).isBacktestRunning = false := by
    intro url t
    have h := ledger_globalAjaxSuccess url (backtestAlways t)
    simp only [AppState.ledger, Prod.mk.injEq] at h
    obtain ⟨h1, h2, h3, h4⟩ := h
    obtain ⟨a1, _, _, a4, a5, a6⟩ := backtestAlways_spec t
    exact ⟨h2.trans a4, h3.trans a5, h4.trans a6, h1.trans a1⟩
  cases o with
  | done response =>
    unfold backtestCallbacks
    simp only
    split_ifs with hs
    · split
      · next results _ =>
        obtain ⟨k1, k2, k3, k4⟩ :=
          key "/api/backtest/execute" (displayBacktestResults host results s)
        exact ⟨k1, k2, k3, Or.inl k4⟩
      · exact ⟨rfl, rfl, rfl, Or.inr rfl⟩
    · obtain ⟨k1, k2, k3, k4⟩ := key "/api/backtest/execute" s
      exact ⟨k1, k2, k3, Or.inl k4⟩
  | fail xhr error =>
    unfold backtestCallbacks
    simp only
    have h := ledger_globalAjaxError xhr error
      (backtestAlways (showError (xhr.appendResponseText "執行回測失敗: ") s))
    simp only [AppState.ledger, Prod.mk.injEq] at h
    obtain ⟨h1, h2, h3, h4⟩ := h
    obtain ⟨a1, _, _, a4, a5, a6⟩ :=
      backtestAlways_spec (showError (xhr.appendResponseText "執行回測失敗: ") s)
    exact ⟨h2.trans a4, h3.trans a5, h4.trans a6, Or.inl (h1.trans a1)⟩

/-- The three ways `executeBacktest` can end: it throws; it only shows an
alert; or, when no backtest is running, it sets the flag, shows the spinner and
sends one request. -/
theorem executeBacktest_cases (s : AppState) :
    (∃ e, executeBacktest s = .error e) ∨
    (∃ type message, executeBacktest s = .ok (showAlert type message s)) ∨
    (s.isBacktestRunning = false ∧ ∃ data, executeBacktest s =
      .ok (sendRequest (Request.backtestExecute data)
        (showBacktestProgress { s with isBacktestRunning := true }))) := by
  unfold executeBacktest
  dsimp only
  split_ifs with h1 h2 h3
  · exact Or.inr (Or.inl ⟨_, _, rfl⟩)
  · exact Or.inr (Or.inl ⟨_, _, rfl⟩)
  · exact Or.inr (Or.inl ⟨_, _, rfl⟩)
  · split
    · exact Or.inr (Or.inr ⟨by simpa using h1, _, rfl⟩)
    · exact Or.inl ⟨_, rfl⟩

/-- An operation that leaves the ledger alone preserves the invariant. -/
theorem GuardInvariant.of_ledger_eq {s t : AppState} (h : t.ledger = s.ledger)
    (hs : GuardInvariant s) : GuardInvariant t := by
  simp only [AppState.ledger, Prod.mk.injEq] at h
  obtain ⟨h1, h2, _, h4⟩ := h
  unfold GuardInvariant backtestsInFlight at *
  rw [h1, h2, h4]
  exact hs

/-- The state after page load satisfies the invariant. -/
theorem guardInvariant_load (form : BacktestForm) (strategyParameters : List Node)
    (zones : List UploadZone) (badges : List StatusBadge) :
    GuardInvariant (documentReady (freshPage form strategyParameters zones badges)) :=
  ⟨Nat.zero_le 1, fun _ => rfl, rfl⟩

/-- Every event preserves the invariant. -/
theorem guardInvariant_step (host : Host) (s : AppState) (e : Event)
    (hs : GuardInvariant s) : GuardInvariant (step host s e) := by
  cases e with
  | userInput form strategyParameters => exact hs
  | executeBacktest =>
    simp only [step]
    rcases executeBacktest_cases s with ⟨e, he⟩ | ⟨type, message, he⟩ | ⟨hidle, data, he⟩
    · rw [he]
      exact hs
    · rw [he]
      exact hs.of_ledger_eq (ledger_showAlert type message s)
    · rw [he]
      obtain ⟨_, h2, h3⟩ := hs
      have hnone : s.pending.filter Request.isBacktest = [] := h2 hidle
      refine ⟨?_, ?_, h3⟩
      · simp [backtestsInFlight, sendRequest, showBacktestProgress, List.filter_append,
          hnone, Request.isBacktest]
      · intro hrun
        simp [sendRequest, showBacktestProgress] at hrun
  | backtestCompletes index o =>
    simp only [step]
    split
    · next data hget =>
      obtain ⟨h1, _, h3⟩ := hs
      have hlen := length_filter_eraseIdx_of_true Request.isBacktest s.pending index
        (Request.backtestExecute data) hget rfl
      have hnone : (s.pending.eraseIdx index).filter Request.isBacktest = [] := by
        have h1' : (s.pending.filter Request.isBacktest).length ≤ 1 := h1
        apply List.eq_nil_of_length_eq_zero
        omega
      obtain ⟨f1, _, f3, _⟩ :=
        backtestCallbacks_frame host o { s with pending := s.pending.eraseIdx index }
      refine ⟨?_, fun _ => ?_, f1.trans h3⟩
      · unfold backtestsInFlight
        rw [f3]
        simp [hnone]
      · unfold backtestsInFlight
        rw [f3]
        exact hnone
    · exact hs
  | exportBacktestResults exportType =>
    simp only [step]
    obtain ⟨h1, h2, h3⟩ := hs
    unfold exportBacktestResults
    rw [h3]
    exact GuardInvariant.of_ledger_eq (ledger_showError _ s) ⟨h1, h2, h3⟩
  | exportCompletes index o =>
    simp only [step]
    split
    · next results exportType hget =>
      have hkeep := filter_eraseIdx_of_false Request.isBacktest s.pending index
        (Request.exportExcel results exportType) hget rfl
      have hmid : GuardInvariant { s with pending := s.pending.eraseIdx index } := by
        obtain ⟨h1, h2, h3⟩ := hs
        unfold GuardInvariant backtestsInFlight at *
        simp only [hkeep]
        exact ⟨h1, h2, h3⟩
      exact hmid.of_ledger_eq (ledger_exportCallbacks o _)
    · exact hs
  | fileChosen file zone =>
    exact hs.of_ledger_eq (ledger_handleFileUpload file zone s)
  | timerFires index =>
    simp only [step]
    split
    · next t _ =>
      have hmid : GuardInvariant { s with timers := s.timers.eraseIdx index } := hs
      exact hmid.of_ledger_eq (ledger_timer_fire t _)
    · exact hs
  | statusPollTick =>
    simp only [step]
    split_ifs
    · obtain ⟨h1, h2, h3⟩ := hs
      have hkeep : (s.pending ++ [Request.systemStatus]).filter Request.isBacktest
          = s.pending.filter Request.isBacktest := by
        simp [List.filter_append, Request.isBacktest]
      unfold GuardInvariant backtestsInFlight checkSystemStatus sendRequest at *
      simp only [hkeep]
      exact ⟨h1, h2, h3⟩
    · exact hs
  | statusCompletes index o =>
    simp only [step]
    split
    · next hget =>
      have hkeep := filter_eraseIdx_of_false Request.isBacktest s.pending index
        Request.systemStatus hget rfl
      have hmid : GuardInvariant { s with pending := s.pending.eraseIdx index } := by
        obtain ⟨h1, h2, h3⟩ := hs
        unfold GuardInvariant backtestsInFlight at *
        simp only [hkeep]
        exact ⟨h1, h2, h3⟩
      exact hmid.of_ledger_eq (ledger_statusCallbacks o _)
    · exact hs

/-- Every reachable state satisfies the invariant. -/
theorem guardInvariant_of_reachable (host : Host) (s : AppState)
    (h : Reachable host s) : GuardInvariant s := by
  induction h with
  | load form strategyParameters zones badges =>
    exact guardInvariant_load form strategyParameters zones badges
  | next s e _ ih => exact guardInvariant_step host s e ih

/-- C1: in every state reachable from page load at most one backtest request
is in flight; and a call of `executeBacktest` while `isBacktestRunning` is true
returns normally with a warning alert as its only effect: no network call is
made, the pending requests and the running flag stay as they are, and nothing
is scheduled but the timer that closes the alerts. -/
theorem single_backtest_in_flight (host : Host) (s : AppState)
    (hreach : Reachable host s) :
    (backtestsInFlight s).length ≤ 1 ∧
    (s.isBacktestRunning = true →
      executeBacktest s = .ok (showWarning "回測正在執行中，請稍候..." s) ∧
      step host s Event.executeBacktest = showWarning "回測正在執行中，請稍候..." s ∧
      (showWarning "回測正在執行中，請稍候..." s).requests = s.requests ∧
      (showWarning "回測正在執行中，請稍候..." s).pending = s.pending ∧
      (showWarning "回測正在執行中，請稍候..." s).isBacktestRunning = true ∧
      (showWarning "回測正在執行中，請稍候..." s).intervals = s.intervals ∧
      (showWarning "回測正在執行中，請稍候..." s).timers = s.timers ++ [Timer.closeAlerts] ∧
      (showWarning "回測正在執行中，請稍候..." s).alerts
        = ⟨"warning", "回測正在執行中，請稍候..."⟩ :: s.alerts) := by
  refine ⟨(guardInvariant_of_reachable host s hreach).1, fun hrun => ?_⟩
  have he : executeBacktest s = .ok (showWarning "回測正在執行中，請稍候..." s) := by
    unfold executeBacktest
    rw [if_pos hrun]
  refine ⟨he, ?_, rfl, rfl, hrun, rfl, rfl, rfl⟩
  simp only [step, he]

/-- Witness of C1: the button pressed a second time while the first request is
in flight. -/
theorem single_backtest_in_flight_witness :
    Reachable sampleHost runningPage ∧ runningPage.isBacktestRunning = true ∧
    (backtestsInFlight runningPage).length = 1 ∧
    (backtestsInFlight (step sampleHost runningPage Event.executeBacktest)).length = 1 ∧
    (step sampleHost runningPage Event.executeBacktest).requests = runningPage.requests :=
  have hreach : Reachable sampleHost runningPage :=
    Reachable.next _ _ (Reachable.load filledForm [] [filledZone] sampleBadges)
  have h := (single_backtest_in_flight sampleHost runningPage hreach).2 (by decide)
  ⟨hreach, by decide, by decide, by rw [h.2.1]; decide, by rw [h.2.1]; rfl⟩

/-- C3: at every reachable state, when a pending backtest request completes
with a `success` body, its results are rendered by `displayBacktestResults`,
but the cached result that `exportBacktestResults` reads is still `undefined`:
an export requested afterwards takes the error branch and sends nothing. -/
theorem success_handler_leaves_cache_unset (host : Host) (s : AppState)
    (hreach : Reachable host s) (index : Nat) (data : FormData)
    (hpending : s.pending.get? index = some (Request.backtestExecute data))
    (results : BacktestResult) :
    (step host s (Event.backtestCompletes index
        (.done ⟨"success", .val results⟩))).backtestResults
      = ResultsContent.results (renderResults host results) ∧
    (step host s (Event.backtestCompletes index
        (.done ⟨"success", .val results⟩))).currentBacktestResults
      = Nullable.undefined ∧
    (∀ exportType,
      exportBacktestResults exportType
          (step host s (Event.backtestCompletes index (.done ⟨"success", .val results⟩)))
        = showError "沒有可匯出的回測結果"
          (step host s (Event.backtestCompletes index
            (.done ⟨"success", .val results⟩)))) := by
  have hcache := (guardInvariant_step host s
    (Event.backtestCompletes index (.done ⟨"success", .val results⟩))
    (guardInvariant_of_reachable host s hreach)).2.2
  refine ⟨?_, hcache, fun exportType => ?_⟩
  · simp only [step, hpending, backtestCallbacks, if_true,
      backtestResults_globalAjaxSuccess]
    simp [backtestAlways, hideBacktestProgress, displayBacktestResults]
  · unfold exportBacktestResults
    rw [hcache]

/-- Witness of C3: the request of `runningPage` completes with a `success`
body; the results are shown, the cache is unset and the export fails. -/
theorem success_handler_leaves_cache_unset_witness :
    Reachable sampleHost runningPage ∧
    runningPage.pending.get? 2 = some (Request.backtestExecute
      (buildFormData filledForm [] (.fin false 1000000 0) [] [])) ∧
    (step sampleHost runningPage (Event.backtestCompletes 2
        (.done ⟨"success", .val sampleResult⟩))).currentBacktestResults
      = Nullable.undefined ∧
    (exportBacktestResults "detailed"
        (step sampleHost runningPage (Event.backtestCompletes 2
          (.done ⟨"success", .val sampleResult⟩)))).alerts
      = [⟨"danger", "沒有可匯出的回測結果"⟩] :=
  have hreach : Reachable sampleHost runningPage :=
    Reachable.next _ _ (Reachable.load filledForm [] [filledZone] sampleBadges)
  have h := success_handler_leaves_cache_unset sampleHost runningPage hreach 2
    (buildFormData filledForm [] (.fin false 1000000 0) [] []) (by decide) sampleResult
  ⟨hreach, by decide, h.2.1, by rw [h.2.2 "detailed"]; decide⟩

/-- C5, as stated, fails: when the pending backtest request of `runningPage`
completes with a body whose status is `error`, no alert at all is shown. -/
theorem non_success_body_shows_no_error :
    runningPage.pending.get? 2 = some (Request.backtestExecute
      (buildFormData filledForm [] (.fin false 1000000 0) [] [])) ∧
    (step sampleHost runningPage
      (Event.backtestCompletes 2 (.done ⟨"error", .undefined⟩))).alerts = [] := by
  decide

/-- C5, amended: when a backtest request fails at the HTTP level, an error
alert with the text `執行回測失敗: ` followed by the response text is shown;
when it returns a body whose status is not `success`, the alerts stay as they
are; in both outcomes `isBacktestRunning` is false afterwards and the results
container holds no spinner. -/
theorem backtest_failure_handling (host : Host) (s : AppState) :
    (∀ xhr error,
      (⟨"danger", xhr.appendResponseText "執行回測失敗: "⟩ : Alert)
        ∈ (backtestCallbacks host (.fail xhr error) s).alerts ∧
      (backtestCallbacks host (.fail xhr error) s).isBacktestRunning = false ∧
      (backtestCallbacks host (.fail xhr error) s).backtestResults
        ≠ ResultsContent.progress) ∧
    (∀ (xhr : Xhr) text, xhr.responseText = .val text →
      xhr.appendResponseText "執行回測失敗: " = "執行回測失敗: " ++ text) ∧
    (∀ response, response.status ≠ "success" →
      (backtestCallbacks host (.done response) s).alerts = s.alerts ∧
      (backtestCallbacks host (.done response) s).isBacktestRunning = false ∧
      (backtestCallbacks host (.done response) s).backtestResults
        ≠ ResultsContent.progress) := by
  refine ⟨fun xhr error => ?_, fun xhr text ht => ?_, fun response hstatus => ?_⟩
  · obtain ⟨a1, a2, a3, _⟩ :=
      backtestAlways_spec (showError (xhr.appendResponseText "執行回測失敗: ") s)
    have hl := ledger_globalAjaxError xhr error
      (backtestAlways (showError (xhr.appendResponseText "執行回測失敗: ") s))
    simp only [AppState.ledger, Prod.mk.injEq] at hl
    obtain ⟨added, hadd⟩ := alerts_globalAjaxError xhr error
      (backtestAlways (showError (xhr.appendResponseText "執行回測失敗: ") s))
    refine ⟨?_, hl.1.trans a1, ?_⟩
    · show _ ∈ (globalAjaxError xhr error _).alerts
      rw [hadd, a3]
      exact List.mem_append_right _ (List.mem_cons_self _ _)
    · show (globalAjaxError xhr error _).backtestResults ≠ _
      rw [backtestResults_globalAjaxError]
      exact a2
  · unfold Xhr.appendResponseText
    rw [ht]
  · obtain ⟨a1, a2, a3, _⟩ := backtestAlways_spec s
    have hl := ledger_globalAjaxSuccess "/api/backtest/execute" (backtestAlways s)
    simp only [AppState.ledger, Prod.mk.injEq] at hl
    have hcb : backtestCallbacks host (.done response) s
        = globalAjaxSuccess "/api/backtest/execute" (backtestAlways s) := by
      unfold backtestCallbacks
      simp only
      rw [if_neg hstatus]
    rw [hcb]
    refine ⟨?_, hl.1.trans a1, ?_⟩
    · rw [alerts_globalAjaxSuccess, a3]
    · rw [backtestResults_globalAjaxSuccess]
      exact a2

/-- Witness of C5: the request of `runningPage` ends with HTTP status 500 and
the response text `boom`, or with a body of status `error`. -/
theorem backtest_failure_handling_witness :
    (⟨"danger", "執行回測失敗: boom"⟩ : Alert)
        ∈ (backtestCallbacks sampleHost (.fail ⟨500, .val "boom"⟩ "Internal Server Error")
            runningPage).alerts ∧
    (backtestCallbacks sampleHost (.fail ⟨500, .val "boom"⟩ "Internal Server Error")
        runningPage).isBacktestRunning = false ∧
    ("error" ≠ "success" ∧
      (backtestCallbacks sampleHost (.done ⟨"error", .undefined⟩)
        runningPage).isBacktestRunning = false) :=
  ⟨((backtest_failure_handling sampleHost runningPage).1
      ⟨500, .val "boom"⟩ "Internal Server Error").1,
   ((backtest_failure_handling sampleHost runningPage).1
      ⟨500, .val "boom"⟩ "Internal Server Error").2.1,
   by decide,
   ((backtest_failure_handling sampleHost runningPage).2.2
      ⟨"error", .undefined⟩ (by decide)).2.1⟩

/-! ### Dynamic parameter form: render, then collect -/

/-- The characters of the id `param-<key>`. -/
theorem paramId_toList (key : String) :
    ("param-" ++ key).toList = "param-".toList ++ key.toList := by
  simp [String.toList]

/-- Removing the first `param-` from the id `param-<key>` gives the key back. -/
theorem replaceFirst_paramId (key : String) :
    String.mk (replaceFirst "param-".toList [] ("param-" ++ key).toList) = key := by
  rw [paramId_toList]
  simp [replaceFirst, String.toList]

/-- The id `param-<key>` is not empty. -/
theorem paramId_ne_empty (key : String) : (("param-" ++ key) != "") = true := by
  have h : ("param-" ++ key).toList ≠ "".toList := by
    rw [paramId_toList]
    simp [String.toList]
  simp only [bne_iff_ne, ne_eq]
  intro h2
  exact h (by rw [h2])

/-- The id `param-<key>` starts with `param-`. -/
theorem paramId_hasPrefix (key : String) :
    "param-".toList.isPrefixOf ("param-" ++ key).toList = true := by
  rw [paramId_toList]
  simp

/-- A control with the id `param-<key>` assigns to `key`. -/
theorem collectControl_of_id (acc : ParamMap) (el : Node) (key : String)
    (hid : el.attr "id" = some ("param-" ++ key)) :
    collectControl acc el =
      if el.attr "type" = some "checkbox" then acc.assign key (.bool (controlChecked el))
      else acc.assign key (controlVal el) := by
  unfold collectControl
  rw [hid]
  simp only [paramId_ne_empty, paramId_hasPrefix, Bool.and_self, if_true, replaceFirst_paramId]

/-- A control without an id is skipped. -/
theorem collectControl_of_no_id (acc : ParamMap) (el : Node)
    (hid : el.attr "id" = none) : collectControl acc el = acc := by
  unfold collectControl
  rw [hid]

/-- The entries of a `select` hold no `input` and no `select`. -/
theorem controlsOfList_options (host : Host) (param : ParamSpec) (options : List ParamOption) :
    Node.controlsOfList (options.map (renderOption host param)) = [] := by
  induction options with
  | nil => rfl
  | cons o os ih =>
    simp [Node.controlsOfList, Node.controls, renderOption, ih]

/-- What collecting finds in the column rendered for one parameter: nothing for
a `select`, whose control has no id; otherwise the value set on the control,
under the parameter's key. -/
theorem collect_renderColumn (host : Host) (key : String) (param : ParamSpec) (acc : ParamMap) :
    (Node.controls (renderColumn host key param)).foldl collectControl acc =
      if param.type = "select" then acc else acc.assign key (initialValue host param) := by
  by_cases hn : param.type = "number"
  · have hs : ¬ param.type = "select" := by rw [hn]; decide
    rw [if_neg hs]
    by_cases hr : param.required.truthy = true <;> by_cases hd : param.description.truthy = true <;>
      simp [renderColumn, renderInput, hn, hr, hd, Node.controls, Node.controlsOfList, Node.setAttr,
        initialValue]
    all_goals
      rw [collectControl_of_id _ _ key (by rfl)]
      simp [Node.attr, controlVal, controlChecked, Node.tagName]
  · by_cases hs : param.type = "select"
    · rw [if_pos hs]
      by_cases hr : param.required.truthy = true <;> by_cases hd : param.description.truthy = true <;>
        simp [renderColumn, renderInput, hs, hr, hd, Node.controls, Node.controlsOfList,
          Node.setAttr, controlsOfList_options]
      all_goals
        rw [collectControl_of_no_id _ _ (by rfl)]
    · rw [if_neg hs]
      by_cases hb : param.type = "boolean"
      · by_cases hr : param.required.truthy = true <;>
          by_cases hd : param.description.truthy = true <;>
          by_cases hc : param.default.truthy = true <;>
          simp [renderColumn, renderInput, hb, hr, hd, hc, Node.controls, Node.controlsOfList,
            Node.setAttr, initialValue]
        all_goals
          rw [collectControl_of_id _ _ key (by rfl)]
          simp [Node.attr, controlVal, controlChecked, Node.tagName]
      · by_cases hr : param.required.truthy = true <;>
          by_cases hd : param.description.truthy = true <;>
          simp [renderColumn, renderInput, hn, hs, hb, hr, hd, Node.controls, Node.controlsOfList,
            Node.setAttr, initialValue]
        all_goals
          rw [collectControl_of_id _ _ key (by rfl)]
          simp [Node.attr, controlVal, controlChecked, Node.tagName]

/-- Assigning a key that is not in the map appends it. -/
theorem assign_of_not_mem (m : ParamMap) (key : String) (v : ParamValue)
    (h : key ∉ m.map Prod.fst) : m.assign key v = m ++ [(key, v)] := by
  induction m with
  | nil => rfl
  | cons a m ih =>
    obtain ⟨k, w⟩ := a
    have hk : ¬ k = key := fun hk => h (by simp [hk])
    have hm : key ∉ m.map Prod.fst := fun hm => h (by simp [hm])
    simp [ParamMap.assign, hk, ih hm]

/-- Collecting over the rendered columns folds over the schema. -/
theorem collect_columns (host : Host) (schema : ParameterSchema) (acc : ParamMap) :
    (Node.controlsOfList (schema.map (fun kp => renderColumn host kp.1 kp.2))).foldl
        collectControl acc =
      schema.foldl (fun m kp =>
        if kp.2.type = "select" then m else m.assign kp.1 (initialValue host kp.2)) acc := by
  induction schema generalizing acc with
  | nil => rfl
  | cons kp rest ih =>
    simp only [List.map_cons, Node.controlsOfList, List.foldl_append, List.foldl_cons,
      collect_renderColumn, ih]

/-- With pairwise distinct keys, the fold appends one entry per parameter that
is not a `select`. -/
theorem fold_assign_nodup (host : Host) (schema : ParameterSchema) (acc : ParamMap)
    (hnodup : (schema.map Prod.fst).Nodup)
    (hfresh : ∀ k ∈ schema.map Prod.fst, k ∉ acc.map Prod.fst) :
    schema.foldl (fun m kp =>
        if kp.2.type = "select" then m else m.assign kp.1 (initialValue host kp.2)) acc =
      acc ++ (schema.filter (fun kp => kp.2.type != "select")).map
        (fun kp => (kp.1, initialValue host kp.2)) := by
  induction schema generalizing acc with
  | nil => simp
  | cons kp rest ih =>
    have hnd : kp.1 ∉ rest.map Prod.fst ∧ (rest.map Prod.fst).Nodup :=
      List.nodup_cons.mp hnodup
    have hk : kp.1 ∉ acc.map Prod.fst := hfresh kp.1 (by simp)
    rw [List.foldl_cons]
    by_cases hs : kp.2.type = "select"
    · rw [if_pos hs, ih acc hnd.2 (fun k hkm => hfresh k (by simp [hkm]))]
      rw [List.filter_cons_of_neg (by simp [hs])]
    · rw [if_neg hs, assign_of_not_mem acc kp.1 _ hk, ih _ hnd.2]
      · rw [List.filter_cons_of_pos (by simp [hs])]
        simp
      · intro k hkm hin
        simp only [List.map_append, List.map_cons, List.map_nil, List.mem_append,
          List.mem_singleton] at hin
        rcases hin with hin | hin
        · exact hfresh k (by simp [hkm]) hin
        · exact hnd.1 (hin ▸ hkm)

/-- Render-then-collect on a schema with pairwise distinct keys: exactly the
parameters that are not of type `select` are recovered, in schema order, each
with the value set on its control. -/
theorem collect_render (host : Host) (schema : ParameterSchema)
    (hnodup : (schema.map Prod.fst).Nodup) :
    collectStrategyParameters (renderStrategyParameters host schema) =
      (schema.filter (fun kp => kp.2.type != "select")).map
        (fun kp => (kp.1, initialValue host kp.2)) := by
  unfold collectStrategyParameters renderStrategyParameters
  by_cases h0 : schema.length = 0
  · have : schema = [] := List.eq_nil_of_length_eq_zero h0
    subst this
    rfl
  · rw [if_neg h0]
    have hrow : Node.controlsOfList
        [Node.element "div" [("class", "row")]
          (schema.map (fun kp => renderColumn host kp.1 kp.2))]
        = Node.controlsOfList (schema.map (fun kp => renderColumn host kp.1 kp.2)) := by
      simp [Node.controlsOfList, Node.controls]
    rw [hrow, collect_columns, fold_assign_nodup host schema [] hnodup (by simp)]
    simp

/-- C6: on a schema with pairwise distinct keys, render-then-collect returns
the parameters that are not of type `select`, each with the value set on its
control, and no key of a `select` parameter: the `select` control is rendered
without the id that `collectStrategyParameters` looks for, so the key set of the
collected map differs from the schema's as soon as the schema has a `select`. -/
theorem collect_render_drops_select (host : Host) (schema : ParameterSchema)
    (hnodup : (schema.map Prod.fst).Nodup) :
    collectStrategyParameters (renderStrategyParameters host schema) =
      (schema.filter (fun kp => kp.2.type != "select")).map
        (fun kp => (kp.1, initialValue host kp.2)) ∧
    (∀ key param, (key, param) ∈ schema → param.type = "select" →
      key ∉ (collectStrategyParameters (renderStrategyParameters host schema)).map
        Prod.fst) := by
  refine ⟨collect_render host schema hnodup, fun key param hmem hsel hin => ?_⟩
  rw [collect_render host schema hnodup] at hin
  simp only [List.map_map, List.mem_map, List.mem_filter, Function.comp] at hin
  obtain ⟨⟨k, q⟩, ⟨hq, hne⟩, hk⟩ := hin
  simp only at hk hne
  subst hk
  have hsame : q = param := by
    clear hne hsel
    induction schema with
    | nil => simp at hq
    | cons a rest ih =>
      have hnd : a.1 ∉ rest.map Prod.fst ∧ (rest.map Prod.fst).Nodup :=
        List.nodup_cons.mp hnodup
      rcases List.mem_cons.mp hq with h1 | h1 <;> rcases List.mem_cons.mp hmem with h2 | h2
      · rw [← h1] at h2
        exact (Prod.mk.inj h2).2.symm
      · exact absurd (List.mem_map_of_mem Prod.fst h2) (by rw [← h1] at hnd; exact hnd.1)
      · exact absurd (List.mem_map_of_mem Prod.fst h1) (by rw [← h2] at hnd; exact hnd.1)
      · exact ih hnd.2 h1 h2
  rw [hsame, hsel] at hne
  exact absurd hne (by decide)

/-- Witness of C6: the schema with the `select` parameter `mode` and the
`number` parameter `window` round-trips to the single key `window`. -/
theorem collect_render_drops_select_witness :
    (selectSchema.map Prod.fst).Nodup ∧
    selectSchema.map Prod.fst = ["mode", "window"] ∧
    collectStrategyParameters (renderStrategyParameters sampleHost selectSchema)
      = [("window", .str "20")] ∧
    "mode" ∉ (collectStrategyParameters
      (renderStrategyParameters sampleHost selectSchema)).map Prod.fst :=
  ⟨by decide, rfl,
   by rw [(collect_render_drops_select sampleHost selectSchema (by decide)).1]; decide,
   (collect_render_drops_select sampleHost selectSchema (by decide)).2 "mode" _
     (List.mem_cons_self _ _) rfl⟩

/-! ### Status poller: what a failed status request shows -/

@[simp] theorem listeners_handleAjaxError (xhr : Xhr) (error : String) (s : AppState) :
    (handleAjaxError xhr error s).ajaxListeners = s.ajaxListeners := by
  unfold handleAjaxError
  split_ifs <;> rfl

@[simp] theorem listeners_globalAjaxError (xhr : Xhr) (error : String) (s : AppState) :
    (globalAjaxError xhr error s).ajaxListeners = s.ajaxListeners := by
  unfold globalAjaxError
  split_ifs
  · exact listeners_handleAjaxError xhr error s
  · rfl

@[simp] theorem listeners_globalAjaxSuccess (url : String) (s : AppState) :
    (globalAjaxSuccess url s).ajaxListeners = s.ajaxListeners := by
  unfold globalAjaxSuccess
  split_ifs <;> rfl

@[simp] theorem listeners_hideBacktestProgress (s : AppState) :
    (hideBacktestProgress s).ajaxListeners = s.ajaxListeners := by
  unfold hideBacktestProgress
  split <;> rfl

@[simp] theorem listeners_backtestAlways (s : AppState) :
    (backtestAlways s).ajaxListeners = s.ajaxListeners := by
  unfold backtestAlways
  rw [listeners_hideBacktestProgress]

/-- No event removes the document-wide ajax listeners. -/
theorem listeners_step (host : Host) (s : AppState) (e : Event) :
    (step host s e).ajaxListeners = s.ajaxListeners := by
  cases e with
  | userInput form strategyParameters => rfl
  | executeBacktest =>
    simp only [step]
    rcases executeBacktest_cases s with ⟨e, he⟩ | ⟨type, message, he⟩ | ⟨_, data, he⟩ <;>
      rw [he] <;> rfl
  | backtestCompletes index o =>
    simp only [step]
    split
    · cases o with
      | done response =>
        unfold backtestCallbacks
        simp only
        split_ifs <;> try split
        all_goals first
          | rfl
          | simp [displayBacktestResults]
      | fail xhr error =>
        unfold backtestCallbacks
        simp [showError, showAlert]
    · rfl
  | exportBacktestResults exportType =>
    simp only [step]
    unfold exportBacktestResults
    split <;> rfl
  | exportCompletes index o =>
    simp only [step]
    split
    · cases o with
      | done today =>
        unfold exportCallbacks
        simp [showSuccess, showAlert]
      | fail xhr error =>
        unfold exportCallbacks
        simp [showError, showAlert]
    · rfl
  | fileChosen file zone =>
    simp only [step]
    unfold handleFileUpload
    split_ifs <;> rfl
  | timerFires index =>
    simp only [step]
    split
    · next t _ => cases t <;> rfl
    · rfl
  | statusPollTick =>
    simp only [step]
    split_ifs <;> rfl
  | statusCompletes index o =>
    simp only [step]
    split
    · cases o with
      | done response =>
        unfold statusCallbacks
        simp only
        split_ifs <;> try split
        all_goals first
          | rfl
          | simp [updateSystemStatusDisplay]
      | fail xhr error =>
        unfold statusCallbacks
        simp [statusFailed]
    · rfl

/-- In every reachable state the document-wide ajax listeners are installed. -/
theorem listeners_of_reachable (host : Host) (s : AppState) (h : Reachable host s) :
    s.ajaxListeners = true := by
  induction h with
  | load form strategyParameters zones badges => rfl
  | next s e _ ih => rw [listeners_step, ih]

/-- C13: at every reachable state, when a pending status request fails, its
own `fail` callback only writes a line to the console, but the document-wide
`ajaxError` listener installed by `setupGlobalEventListeners` then runs
`handleAjaxError`, which logs and calls `showError`: whatever the HTTP status
code, one more error alert is on the page afterwards. -/
theorem status_failure_shows_alert (host : Host) (s : AppState)
    (hreach : Reachable host s) (index : Nat)
    (hpending : s.pending.get? index = some Request.systemStatus)
    (xhr : Xhr) (error : String) :
    (statusFailed xhr s).alerts = s.alerts ∧
    (step host s (Event.statusCompletes index (.fail xhr error))).alerts =
      ⟨"danger",
        if xhr.status = 401 then "請先登入系統"
        else if xhr.status = 403 then "權限不足"
        else if xhr.status = 404 then "請求的資源不存在"
        else if xhr.status = 500 then "伺服器內部錯誤"
        else "請求失敗: " ++ error⟩ :: s.alerts ∧
    (step host s (Event.statusCompletes index (.fail xhr error))).console =
      s.console ++ [xhr.appendResponseText "檢查系統狀態失敗: ", "AJAX錯誤: " ++ error] := by
  have hl : s.ajaxListeners = true := listeners_of_reachable host s hreach
  have hstep : step host s (Event.statusCompletes index (.fail xhr error)) =
      handleAjaxError xhr error
        (statusFailed xhr { s with pending := s.pending.eraseIdx index }) := by
    simp only [step, hpending, statusCallbacks, globalAjaxError]
    rw [if_pos (by exact hl)]
  rw [hstep]
  refine ⟨rfl, ?_, ?_⟩
  · unfold handleAjaxError
    split_ifs <;> rfl
  · unfold handleAjaxError
    split_ifs <;> simp [showError, showAlert, statusFailed]

/-- Witness of C13: the status request sent at page load is answered with
HTTP status 500; an error alert is shown. -/
theorem status_failure_shows_alert_witness :
    Reachable sampleHost loadedPage ∧
    loadedPage.pending.get? 0 = some Request.systemStatus ∧
    (step sampleHost loadedPage
      (Event.statusCompletes 0 (.fail ⟨500, .val "down"⟩ "Internal Server Error"))).alerts
      = [⟨"danger", "伺服器內部錯誤"⟩] :=
  ⟨Reachable.load filledForm [] [filledZone] sampleBadges, rfl,
   (status_failure_shows_alert sampleHost loadedPage
     (Reachable.load filledForm [] [filledZone] sampleBadges) 0 rfl
     ⟨500, .val "down"⟩ "Internal Server Error").2.1⟩

/-! ### Results renderer: summary and trade table -/

/-- The digits produced are put in front of the digits already there. -/
theorem toDigitsCore_acc (b : Nat) : ∀ (f n : Nat) (ds : List Char),
    Nat.toDigitsCore b f n ds = Nat.toDigitsCore b f n [] ++ ds
  | 0, _, ds => by simp [Nat.toDigitsCore]
  | f + 1, n, ds => by
    simp only [Nat.toDigitsCore]
    split_ifs
    · simp
    · rw [toDigitsCore_acc b f (n / b) (Nat.digitChar (n % b) :: ds),
        toDigitsCore_acc b f (n / b) [Nat.digitChar (n % b)]]
      simp

/-- With enough fuel the digits do not depend on the fuel. -/
theorem toDigitsCore_fuel (b : Nat) (hb : 2 ≤ b) : ∀ (f g n : Nat) (ds : List Char),
    n < f → n < g → Nat.toDigitsCore b f n ds = Nat.toDigitsCore b g n ds
  | 0, _, _, _, hf, _ => by omega
  | _ + 1, 0, _, _, _, hg => by omega
  | f + 1, g + 1, n, ds, hf, hg => by
    simp only [Nat.toDigitsCore]
    split_ifs with h0
    · rfl
    · have hlt : n / b < n := Nat.div_lt_self (by
        rcases Nat.eq_zero_or_pos n with h | h
        · simp [h] at h0
        · exact h) hb
      exact toDigitsCore_fuel b hb f g (n / b) _ (by omega) (by omega)

/-- The decimal digits of a number from ten on: those of its tenth part, then
its last digit. -/
theorem toDigits_split (n : Nat) (h : 10 ≤ n) :
    Nat.toDigits 10 n = Nat.toDigits 10 (n / 10) ++ [Nat.digitChar (n % 10)] := by
  have h0 : ¬ n / 10 = 0 := by omega
  unfold Nat.toDigits
  rw [Nat.toDigitsCore]
  simp only [h0, if_false]
  rw [toDigitsCore_acc, toDigitsCore_fuel 10 (by omega) n (n / 10 + 1) (n / 10) [] (by omega)
    (by omega)]

/-- A number below ten has one decimal digit. -/
theorem toDigits_small (n : Nat) (h : n < 10) :
    Nat.toDigits 10 n = [Nat.digitChar n] := by
  have h0 : n / 10 = 0 := by omega
  have h1 : n % 10 = n := by omega
  unfold Nat.toDigits
  rw [Nat.toDigitsCore]
  simp [h0, h1]

/-- Cutting two places from the right of at least three digits. -/
theorem pointSplit_long (hd : List Char) (a b : Char) (h : hd ≠ []) :
    (let ds := hd ++ [a, b]
     let ds := if ds.length ≤ 2 then List.replicate (3 - ds.length) '0' ++ ds else ds
     ds.take (ds.length - 2) ++ '.' :: ds.drop (ds.length - 2)) = hd ++ ['.', a, b] := by
  have hpos : 0 < hd.length := List.length_pos.mpr h
  have hlen : (hd ++ [a, b]).length = hd.length + 2 := by simp
  have hgt : ¬ hd.length + 2 ≤ 2 := by omega
  simp only [hlen, if_neg hgt, Nat.add_sub_cancel]
  rw [List.take_left, List.drop_left]

/-- Every number has at least one decimal digit. -/
theorem toDigits_ne_nil (n : Nat) : Nat.toDigits 10 n ≠ [] := by
  rcases Nat.lt_or_ge n 10 with hs | hs
  · rw [toDigits_small _ hs]; simp
  · rw [toDigits_split _ hs]; simp

/-- The digit string `toFixed(2)` builds for `n` hundredths is `n` written with
exactly two decimal places. -/
theorem placePoint2_eq (n : Nat) : JSNumber.placePoint2 n = hundredthsText n := by
  apply String.ext
  simp only [JSNumber.placePoint2, hundredthsText, Nat.repr, String.toList, List.asString,
    String.data_append]
  show _ = Nat.toDigits 10 (n / 100) ++ ['.'] ++ _
  by_cases h100 : 100 ≤ n
  · have e1 := toDigits_split n (by omega)
    have e2 := toDigits_split (n / 10) (by omega)
    have e3 : n / 10 / 10 = n / 100 := by omega
    rw [e1, e2, e3, List.append_assoc]
    have := pointSplit_long (Nat.toDigits 10 (n / 100)) (Nat.digitChar (n / 10 % 10))
      (Nat.digitChar (n % 10)) (toDigits_ne_nil _)
    simpa using this
  · have hz : n / 100 = 0 := by omega
    rw [hz]
    by_cases h10 : 10 ≤ n
    · have e1 := toDigits_split n h10
      have e2 := toDigits_small (n / 10) (by omega)
      have e3 : n / 10 % 10 = n / 10 := by omega
      rw [e1, e2, e3]
      rfl
    · have e1 := toDigits_small n (by omega)
      have e3 : n / 10 % 10 = 0 := by omega
      have e4 : n % 10 = n := by omega
      rw [e1, e3, e4]
      rfl

/-- The text of `toFixed(2)` for a finite number below `10^21`: an optional
minus sign and the nearest number of hundredths with exactly two decimals. -/
theorem toFixed2_of_finite (host : Host) (neg : Bool) (m : Nat) (e : Int)
    (h : JSNumber.magGe1e21 m e = false) :
    (JSNumber.fin neg m e).toFixed2 host =
      (if neg && m != 0 then "-" else "") ++ hundredthsText (JSNumber.nearestHundredths m e) := by
  simp only [JSNumber.toFixed2, h, placePoint2_eq]
  rfl

/-- C11: for the sample input the summary shows `60.00%` for the win rate and a
`text-success` styled `12.50%` for the return rate, but the net profit and loss
card calls `toLocaleString()` without a locale: in a browser whose default
locale is `de-DE` it reads `125.000`, not `125,000`.  The sibling `formatMoney`,
which pins `zh-TW`, writes the same amount as `125,000` in that browser, and so
does the card when the default locale is `zh-TW`. -/
theorem summary_net_profit_follows_browser_locale :
    sampleResult.total_profit_loss = .fin false 125000 0 ∧
    (renderResults (browserHost LocaleSymbols.deDE) sampleResult).summary =
      [⟨"總交易次數", "10", ""⟩, ⟨"勝率", "60.00%", ""⟩,
       ⟨"總報酬", "12.50%", "text-success"⟩, ⟨"最大回撤", "-8.00%", "text-danger"⟩,
       ⟨"夏普比率", "1.42", ""⟩, ⟨"淨損益", "125.000", "text-success"⟩] ∧
    formatMoney (browserHost LocaleSymbols.deDE) (.val sampleResult.total_profit_loss)
      = "125,000" ∧
    (renderResults (browserHost LocaleSymbols.zhTW) sampleResult).summary[5]?
      = some ⟨"淨損益", "125,000", "text-success"⟩ := by
  decide

/-- A number that JSON can carry is below zero exactly when it is not at least
zero. -/
theorem JsonNumber.geZero_eq_not_ltZero (x : JsonNumber) :
    x.toNumber.geZero = !x.toNumber.ltZero := by
  cases x with
  | inf neg => cases neg <;> rfl
  | fin neg m e =>
    cases neg <;> by_cases hm : m = 0 <;>
      simp [JsonNumber.toNumber, JSNumber.geZero, JSNumber.ltZero, hm, bne]

/-- On a JSON field, a number or `null`, the test `v >= 0` of the script fails
exactly when `v < 0` holds. -/
theorem geZeroField_eq_not_ltZeroField (v : JsonField JsonNumber) :
    geZeroField v.number = !ltZeroField v.number := by
  cases v with
  | null => rfl
  | val x => exact JsonNumber.geZero_eq_not_ltZero x

/-- C12: `displayBacktestResults` renders a trade table exactly when
`trade_records` is a non-empty list, with one row per record in the same
order; in each row the `profit_loss` cell carries `text-danger` exactly when
`profit_loss < 0` and `text-success` otherwise; the badge is the buy badge
exactly when `trade_direction` is `buy` and the sell badge otherwise. -/
theorem trade_table_rows (host : Host) (results : BacktestResult) :
    ((renderResults host results).table.isSome = true ↔
      ∃ records, results.trade_records = .val records ∧ records ≠ []) ∧
    (∀ records, results.trade_records = .val records → records ≠ [] →
      (renderResults host results).table = some (records.map (renderTradeRow host)) ∧
      (records.map (renderTradeRow host)).length = records.length ∧
      (∀ i : Nat,
        (records.map (renderTradeRow host))[i]? = records[i]?.map (renderTradeRow host))) ∧
    (∀ trade : TradeRecord,
      ((renderTradeRow host trade).profitLossClass = "text-danger" ↔
        ltZeroField trade.profit_loss.number = true) ∧
      ((renderTradeRow host trade).profitLossClass = "text-success" ↔
        ltZeroField trade.profit_loss.number = false) ∧
      (trade.trade_direction = "buy" →
        (renderTradeRow host trade).badgeClass = "badge-success" ∧
        (renderTradeRow host trade).badgeText = "買入") ∧
      (trade.trade_direction ≠ "buy" →
        (renderTradeRow host trade).badgeClass = "badge-danger" ∧
        (renderTradeRow host trade).badgeText = "賣出")) := by
  refine ⟨?_, fun records hrec hne => ?_, fun trade => ?_⟩
  · constructor
    · intro h
      cases hrec : results.trade_records with
      | undefined => simp [renderResults, hrec] at h
      | null => simp [renderResults, hrec] at h
      | val records =>
        cases records with
        | nil => simp [renderResults, hrec] at h
        | cons t ts => exact ⟨t :: ts, rfl, by simp⟩
    · rintro ⟨records, hrec, hne⟩
      cases records with
      | nil => exact absurd rfl hne
      | cons t ts => simp [renderResults, hrec]
  · cases records with
    | nil => exact absurd rfl hne
    | cons t ts =>
      exact ⟨by simp [renderResults, hrec], by simp, fun i => List.getElem?_map _ _ _⟩
  · have hcmp := geZeroField_eq_not_ltZeroField trade.profit_loss
    have hclass : (renderTradeRow host trade).profitLossClass
        = signClass (!ltZeroField trade.profit_loss.number) := by
      show signClass (geZeroField trade.profit_loss.number) = _
      rw [hcmp]
    refine ⟨?_, ?_, fun hbuy => ?_, fun hsell => ?_⟩
    · rw [hclass]
      cases ltZeroField trade.profit_loss.number <;> simp [signClass]
    · rw [hclass]
      cases ltZeroField trade.profit_loss.number <;> simp [signClass]
    · simp [renderTradeRow, hbuy]
    · simp [renderTradeRow, hsell]

/-- Witness of C12: the sample result with a long trade that lost 500 and a
short trade that gained 1200, in a browser whose default locale is `zh-TW`. -/
theorem trade_table_rows_witness :
    tradedResult.trade_records = .val [losingTrade, winningTrade] ∧
    ((renderResults (browserHost LocaleSymbols.zhTW) tradedResult).table.map List.length
      = some 2) ∧
    losingTrade.profit_loss = .val (.fin true 500 0) ∧
    ltZeroField losingTrade.profit_loss.number = true ∧
    (renderTradeRow (browserHost LocaleSymbols.zhTW) losingTrade).profitLossClass
      = "text-danger" ∧
    (renderTradeRow (browserHost LocaleSymbols.zhTW) losingTrade).badgeClass
      = "badge-success" ∧
    (renderTradeRow (browserHost LocaleSymbols.zhTW) winningTrade).profitLossClass
      = "text-success" ∧
    (renderTradeRow (browserHost LocaleSymbols.zhTW) winningTrade).badgeClass
      = "badge-danger" :=
  ⟨rfl,
   by rw [((trade_table_rows (browserHost LocaleSymbols.zhTW) tradedResult).2.1
        [losingTrade, winningTrade] rfl (by simp)).1]; rfl,
   rfl, rfl,
   ((trade_table_rows (browserHost LocaleSymbols.zhTW) tradedResult).2.2 losingTrade).1.mpr rfl,
   (((trade_table_rows (browserHost LocaleSymbols.zhTW) tradedResult).2.2
      losingTrade).2.2.1 rfl).1,
   ((trade_table_rows (browserHost LocaleSymbols.zhTW) tradedResult).2.2
      winningTrade).2.1.mpr rfl,
   (((trade_table_rows (browserHost LocaleSymbols.zhTW) tradedResult).2.2
      winningTrade).2.2.2 (by decide)).1⟩

end TradingWeb
